import Mathlib

/-!
# Shallow embedding of the EnetCpp protocol engine

This file embeds, as executable Lean definitions, the parts of the
`EnetPorting` sources (`peer.cpp`, `callbacks.cpp`, `protocol.h`,
`list.c`/`list.h`, `time.h`) that the verified claims are about, and then
proves or refutes each claim.

Machine integers are modelled as `Nat` with explicit `% 2^w` at the points
where C unsigned wrap-around can actually occur.  Intrusive doubly linked
lists (`ENetList`) are modelled either as Lean `List`s (where the source
only ever appends / removes / walks them) or, for the dispatch splice whose
pointer surgery matters, as an explicit store of `next`/`prev` pointers.
-/

namespace Enet

/-- 2^32, the modulus of `enet_uint32` arithmetic. -/
def U32 : Nat := 4294967296

/-- 2^16, the modulus of `enet_uint16` arithmetic. -/
def U16 : Nat := 65536

/-! ## Protocol constants (`protocol.h`) -/

def ENET_PROTOCOL_MINIMUM_MTU : Nat := 576
def ENET_PROTOCOL_MAXIMUM_MTU : Nat := 4096
def ENET_PROTOCOL_MINIMUM_WINDOW_SIZE : Nat := 4096
def ENET_PROTOCOL_MAXIMUM_WINDOW_SIZE : Nat := 65536
def ENET_PROTOCOL_MINIMUM_CHANNEL_COUNT : Nat := 1
def ENET_PROTOCOL_MAXIMUM_CHANNEL_COUNT : Nat := 255
def ENET_PROTOCOL_MAXIMUM_PEER_ID : Nat := 0xFFF
def ENET_PROTOCOL_MAXIMUM_FRAGMENT_COUNT : Nat := 1024 * 1024

def ENET_PROTOCOL_COMMAND_NONE : Nat := 0
def ENET_PROTOCOL_COMMAND_ACKNOWLEDGE : Nat := 1
def ENET_PROTOCOL_COMMAND_CONNECT : Nat := 2
def ENET_PROTOCOL_COMMAND_VERIFY_CONNECT : Nat := 3
def ENET_PROTOCOL_COMMAND_DISCONNECT : Nat := 4
def ENET_PROTOCOL_COMMAND_PING : Nat := 5
def ENET_PROTOCOL_COMMAND_SEND_RELIABLE : Nat := 6
def ENET_PROTOCOL_COMMAND_SEND_UNRELIABLE : Nat := 7
def ENET_PROTOCOL_COMMAND_SEND_FRAGMENT : Nat := 8
def ENET_PROTOCOL_COMMAND_SEND_UNSEQUENCED : Nat := 9
def ENET_PROTOCOL_COMMAND_BANDWIDTH_LIMIT : Nat := 10
def ENET_PROTOCOL_COMMAND_THROTTLE_CONFIGURE : Nat := 11
def ENET_PROTOCOL_COMMAND_SEND_UNRELIABLE_FRAGMENT : Nat := 12
def ENET_PROTOCOL_COMMAND_COUNT : Nat := 13
def ENET_PROTOCOL_COMMAND_MASK : Nat := 0x0F

def ENET_PROTOCOL_COMMAND_FLAG_ACKNOWLEDGE : Nat := 128
def ENET_PROTOCOL_COMMAND_FLAG_UNSEQUENCED : Nat := 64
def ENET_PROTOCOL_HEADER_FLAG_SENT_TIME : Nat := 32768

/-! ## Peer constants

The `ENET_PEER_*` constants live in a header (`enet.h` / `Defines.h`) that is
not part of the available sources.  They are therefore modelled from the
spec.  -/

/-- Modelled from the spec: `ENET_PEER_RELIABLE_WINDOW_SIZE` (4096), from the
header missing from the sources ("W = ENET_PEER_RELIABLE_WINDOW_SIZE = 4096"). -/
def ENET_PEER_RELIABLE_WINDOW_SIZE : Nat := 4096

/-- Modelled from the spec: `ENET_PEER_RELIABLE_WINDOWS` (16), from the header
missing from the sources ("WINDOWS = 16", "a 16-entry reliableWindows array"). -/
def ENET_PEER_RELIABLE_WINDOWS : Nat := 16

/-- Modelled from the spec: `ENET_PEER_FREE_RELIABLE_WINDOWS` (16), from the
header missing from the sources ("at most ENET_PEER_FREE_RELIABLE_WINDOWS (16)
windows ahead of the current receive window are accepted"). -/
def ENET_PEER_FREE_RELIABLE_WINDOWS : Nat := 16

/-- Modelled from the spec: `ENET_PEER_UNSEQUENCED_WINDOW_SIZE`, from the
header missing from the sources.  The spec fixes the bitmap shape as
"32 x UNSEQUENCED_WINDOW_SIZE-bit window"s and the code's `+ 0x10000` wrap
shift requires `FREE_UNSEQUENCED_WINDOWS * UNSEQUENCED_WINDOW_SIZE <= 0x8000`;
the standard value 1024 is used. -/
def ENET_PEER_UNSEQUENCED_WINDOW_SIZE : Nat := 1024

/-- Modelled from the spec: `ENET_PEER_FREE_UNSEQUENCED_WINDOWS` (32), from
the header missing from the sources ("For every 32 x UNSEQUENCED_WINDOW_SIZE-bit
window"). -/
def ENET_PEER_FREE_UNSEQUENCED_WINDOWS : Nat := 32

/-- Peer connection states (spec section 3; the enum header is not in the
sources but every state name appears in `peer.cpp`/`callbacks.cpp`). -/
inductive PeerState where
  | disconnected
  | connecting
  | acknowledgingConnect
  | connectionPending
  | connectionSucceeded
  | connected
  | disconnectLater
  | disconnecting
  | acknowledgingDisconnect
  | zombie
deriving Repr, DecidableEq

/-! ## Time arithmetic (`time.h`, in the sources) -/

/-- `uint32` subtraction `a - b` with wrap-around (operands assumed `< 2^32`). -/
def usub32 (a b : Nat) : Nat := (a + U32 - b % U32) % U32

/-- `ENET_TIME_LESS(a, b) = ((a) - (b) >= ENET_TIME_OVERFLOW)` with
`ENET_TIME_OVERFLOW = 86400000` (`time.h`). -/
def ENET_TIME_LESS (a b : Nat) : Bool := usub32 a b ≥ 86400000

/-- `ENET_TIME_DIFFERENCE(a, b)` (`time.h`): `b - a` when `a - b` overflows,
else `a - b`, in `uint32` arithmetic. -/
def ENET_TIME_DIFFERENCE (a b : Nat) : Nat :=
  if usub32 a b ≥ 86400000 then usub32 b a else usub32 a b

/-! ## `enet_peer_throttle` (peer.cpp, lines 68-96) -/

/-- The peer fields read and written by `enet_peer_throttle`. -/
structure ThrottlePeer where
  lastRoundTripTime : Nat
  lastRoundTripTimeVariance : Nat
  packetThrottle : Nat
  packetThrottleLimit : Nat
  packetThrottleAcceleration : Nat
  packetThrottleDeceleration : Nat
deriving Repr, DecidableEq

/-- `enet_peer_throttle(peer, rtt)` (peer.cpp lines 68-96), returning the
`int` result together with the updated peer.  All fields are `enet_uint32`,
so the acceleration sum wraps modulo `2^32`. -/
def enet_peer_throttle (peer : ThrottlePeer) (rtt : Nat) : Int × ThrottlePeer :=
  if peer.lastRoundTripTime ≤ peer.lastRoundTripTimeVariance then
    (0, { peer with packetThrottle := peer.packetThrottleLimit })
  else if rtt ≤ peer.lastRoundTripTime then
    let t := (peer.packetThrottle + peer.packetThrottleAcceleration) % U32
    let t := if t > peer.packetThrottleLimit then peer.packetThrottleLimit else t
    (1, { peer with packetThrottle := t })
  else if rtt > (peer.lastRoundTripTime + 2 * peer.lastRoundTripTimeVariance) % U32 then
    let t :=
      if peer.packetThrottle > peer.packetThrottleDeceleration then
        peer.packetThrottle - peer.packetThrottleDeceleration
      else 0
    (-1, { peer with packetThrottle := t })
  else
    (0, peer)

/-! ## RTT update in `ENetHost::handle_acknowledge` (callbacks.cpp, lines 1308-1371) -/

/-- The peer fields read and written by the RTT-statistics part of
`ENetHost::handle_acknowledge`.  `throttle` bundles the fields that
`enet_peer_throttle` operates on. -/
structure AckPeer where
  state : PeerState
  throttle : ThrottlePeer
  roundTripTime : Nat
  roundTripTimeVariance : Nat
  lowestRoundTripTime : Nat
  highestRoundTripTimeVariance : Nat
  packetThrottleEpoch : Nat
  packetThrottleInterval : Nat
  lastReceiveTime : Nat
  earliestTimeout : Nat
deriving Repr, DecidableEq

/-- `x & 0x8000` for a `Nat` holding an unsigned value. -/
def and0x8000 (x : Nat) : Nat := x / 32768 % 2 * 32768

/-- Wrap reconstruction of `receivedSentTime` (callbacks.cpp lines
1318-1321): the low 16 bits come from the wire, the high bits from
`serviceTime`, stepping one 16-bit epoch back when the sent time's bit 15 is
set but `serviceTime`'s is clear. -/
def reconstructSentTime (serviceTime sent16 : Nat) : Nat :=
  let rst := serviceTime / U16 * U16 + sent16
  if and0x8000 rst > and0x8000 serviceTime then usub32 rst 0x10000 else rst

/-- Lines 1329-1352 of `handle_acknowledge`: the RTT exponential smoothing
block (the `lastReceiveTime > 0` conditional), applied to the clamped
round-trip sample. -/
def ack_smooth (roundTripTime : Nat) (peer : AckPeer) : AckPeer :=
  if peer.lastReceiveTime > 0 then
    let peer := { peer with
      throttle := (enet_peer_throttle peer.throttle roundTripTime).2 }
    let v := peer.roundTripTimeVariance - peer.roundTripTimeVariance / 4
    if roundTripTime ≥ peer.roundTripTime then
      let diff := roundTripTime - peer.roundTripTime
      { peer with
          roundTripTimeVariance := (v + diff / 4) % U32
          roundTripTime := (peer.roundTripTime + diff / 8) % U32 }
    else
      let diff := peer.roundTripTime - roundTripTime
      { peer with
          roundTripTimeVariance := (v + diff / 4) % U32
          roundTripTime := peer.roundTripTime - diff / 8 }
  else
    { peer with
        roundTripTime := roundTripTime
        roundTripTimeVariance := (roundTripTime + 1) / 2 }

/-- Lines 1354-1368 of `handle_acknowledge`: tracking of the lowest RTT and
highest variance and their promotion at the end of a throttle epoch. -/
def ack_track (serviceTime : Nat) (p0 : AckPeer) : AckPeer :=
  let p1 : AckPeer :=
    if p0.roundTripTime < p0.lowestRoundTripTime then
      { p0 with lowestRoundTripTime := p0.roundTripTime }
    else p0
  let p2 : AckPeer :=
    if p1.roundTripTimeVariance > p1.highestRoundTripTimeVariance then
      { p1 with highestRoundTripTimeVariance := p1.roundTripTimeVariance }
    else p1
  if p2.packetThrottleEpoch = 0 ∨
      ENET_TIME_DIFFERENCE serviceTime p2.packetThrottleEpoch ≥
        p2.packetThrottleInterval then
    { p2 with
        throttle := { p2.throttle with
          lastRoundTripTime := p2.lowestRoundTripTime
          lastRoundTripTimeVariance := max p2.highestRoundTripTimeVariance 1 }
        lowestRoundTripTime := p2.roundTripTime
        highestRoundTripTimeVariance := p2.roundTripTimeVariance
        packetThrottleEpoch := serviceTime }
  else p2

/-- The RTT-statistics prefix of `ENetHost::handle_acknowledge`
(callbacks.cpp lines 1308-1371, i.e. everything up to but excluding
`RemoveSentReliableCommand` and the state switch).  Returns `none` exactly
when the source takes one of its two early `return 0` exits before touching
the peer. -/
def handle_acknowledge_rtt (serviceTime sent16 : Nat) (peer : AckPeer) :
    Option AckPeer :=
  if peer.state = .disconnected ∨ peer.state = .zombie then none
  else
    let receivedSentTime := reconstructSentTime serviceTime sent16
    if ENET_TIME_LESS serviceTime receivedSentTime then none
    else
      let roundTripTime := ENET_TIME_DIFFERENCE serviceTime receivedSentTime
      let roundTripTime := max roundTripTime 1
      let peer := ack_track serviceTime (ack_smooth roundTripTime peer)
      some { peer with lastReceiveTime := max serviceTime 1, earliestTimeout := 0 }

end Enet

namespace Enet

/-- A peer for which the C8 counterexample is evaluated: default throttle 32
at its limit 32, with the (remote-configurable) acceleration at the maximum
`uint32` value. -/
def throttleCexPeer : ThrottlePeer :=
  { lastRoundTripTime := 2
    lastRoundTripTimeVariance := 1
    packetThrottle := 32
    packetThrottleLimit := 32
    packetThrottleAcceleration := U32 - 1
    packetThrottleDeceleration := 2 }

/-- A concrete peer used to witness the C9 theorem. -/
def ackWitnessPeer : AckPeer :=
  { state := .connected
    throttle :=
      { lastRoundTripTime := 500
        lastRoundTripTimeVariance := 0
        packetThrottle := 32
        packetThrottleLimit := 32
        packetThrottleAcceleration := 2
        packetThrottleDeceleration := 2 }
    roundTripTime := 500
    roundTripTimeVariance := 100
    lowestRoundTripTime := 500
    highestRoundTripTimeVariance := 100
    packetThrottleEpoch := 1
    packetThrottleInterval := 5000
    lastReceiveTime := 1
    earliestTimeout := 0 }

/-! ## Reliable-window arithmetic (peer.cpp lines 1269-1280, 1716-1727)

The same window computation appears verbatim in
`enet_peer_queue_incoming_command`, `ENetPeer::QueueIncomingCommand`,
`enet_peer_queue_acknowledgement` and `ENetPeer::QueueAcknowledgement`; it is
factored out here. -/

/-- `reliableWindow` after the wrap shift: `r / ENET_PEER_RELIABLE_WINDOW_SIZE`,
plus `ENET_PEER_RELIABLE_WINDOWS` when `r < e` (with `e` the channel's
`incomingReliableSequenceNumber`). -/
def shiftedWindow (rsn e : Nat) : Nat :=
  if rsn < e then rsn / ENET_PEER_RELIABLE_WINDOW_SIZE + ENET_PEER_RELIABLE_WINDOWS
  else rsn / ENET_PEER_RELIABLE_WINDOW_SIZE

/-- The admission test of `enet_peer_queue_incoming_command` (peer.cpp lines
1720-1727): `true` when the command is rejected as stale or
future-out-of-window. -/
def windowViolation (rsn e : Nat) : Bool :=
  decide (shiftedWindow rsn e < e / ENET_PEER_RELIABLE_WINDOW_SIZE ∨
    shiftedWindow rsn e ≥
      e / ENET_PEER_RELIABLE_WINDOW_SIZE + ENET_PEER_FREE_RELIABLE_WINDOWS - 1)

/-- The rejection test of `enet_peer_queue_acknowledgement` (peer.cpp lines
1305-1316): `true` when the shifted window index falls in the boundary zone
`[currentWindow + FREE - 1, currentWindow + FREE]` and the ack is dropped. -/
def ackWindowDrop (rsn e : Nat) : Bool :=
  decide (shiftedWindow rsn e ≥
      e / ENET_PEER_RELIABLE_WINDOW_SIZE + ENET_PEER_FREE_RELIABLE_WINDOWS - 1 ∧
    shiftedWindow rsn e ≤
      e / ENET_PEER_RELIABLE_WINDOW_SIZE + ENET_PEER_FREE_RELIABLE_WINDOWS)

/-! ## `enet_peer_queue_acknowledgement` (peer.cpp, lines 1297-1331) -/

/-- An `ENetAcknowledgement` record: the datagram's `sentTime` and the header
fields of the command being acknowledged. -/
structure Acknowledgement where
  sentTime : Nat
  channelID : Nat
  reliableSequenceNumber : Nat
deriving Repr, DecidableEq

/-- The peer fields used by `enet_peer_queue_acknowledgement`; each channel is
represented by its `incomingReliableSequenceNumber`, the only channel field
the function reads. -/
structure AckQPeer where
  channels : List Nat
  outgoingDataTotal : Nat
  acknowledgements : List Acknowledgement
deriving Repr, DecidableEq

/-- Appending the acknowledgement record (peer.cpp lines 1319-1330, with
`sizeof(ENetProtocolAcknowledge) = 8` from the packed layout in
`protocol.h`). -/
def appendAck (peer : AckQPeer) (channelID rsn sentTime : Nat) : AckQPeer :=
  { peer with
      outgoingDataTotal := (peer.outgoingDataTotal + 8) % U32
      acknowledgements := peer.acknowledgements ++
        [{ sentTime := sentTime, channelID := channelID,
           reliableSequenceNumber := rsn }] }

/-- `enet_peer_queue_acknowledgement(peer, command, sentTime)` (peer.cpp
lines 1297-1331).  `channelID` and `rsn` are the command's header fields.
Returns `none` exactly when the source returns `nullptr` from the window
check; allocation failure is not modelled. -/
def enet_peer_queue_acknowledgement (peer : AckQPeer)
    (channelID rsn sentTime : Nat) : Option AckQPeer :=
  if h : channelID < peer.channels.length then
    let e := peer.channels.get ⟨channelID, h⟩
    if ackWindowDrop rsn e then none
    else some (appendAck peer channelID rsn sentTime)
  else some (appendAck peer channelID rsn sentTime)

/-- `x & flag` tested as a Bool, for `flag` a power of two. -/
def testFlag (x flag : Nat) : Bool := x / flag % 2 = 1

/-- The acknowledgement gate of `ENetHost::handle_incoming_commands`
(callbacks.cpp lines 1277-1304): whether `enet_peer_queue_acknowledgement`
is invoked for a received command, given the datagram header flags, the
peer's state and the command byte. -/
def ack_gate (headerFlags : Nat) (state : PeerState) (commandByte : Nat) : Bool :=
  if testFlag commandByte ENET_PROTOCOL_COMMAND_FLAG_ACKNOWLEDGE = false then false
  else if testFlag headerFlags ENET_PROTOCOL_HEADER_FLAG_SENT_TIME = false then false
  else if state = .disconnecting ∨ state = .acknowledgingConnect ∨
      state = .disconnected ∨ state = .zombie then false
  else if state = .acknowledgingDisconnect then
    decide (commandByte % 16 = ENET_PROTOCOL_COMMAND_DISCONNECT)
  else true

/-! ## `enet_peer_queue_incoming_command` (peer.cpp, lines 1683-1866)

The model covers the function up to and including the insertion of the new
incoming command into the channel list (line 1851); the subsequent dispatch
call is modelled separately (see the dispatch section). -/

/-- The sequence-number pair of a queued incoming command, the only fields
the insertion walks compare. -/
structure InCmd where
  rsn : Nat
  usn : Nat
deriving Repr, DecidableEq

/-- An `ENetChannel`'s incoming state. -/
structure InChannel where
  incomingReliableSequenceNumber : Nat
  incomingUnreliableSequenceNumber : Nat
  incomingReliableCommands : List InCmd
  incomingUnreliableCommands : List InCmd
deriving Repr, DecidableEq

/-- Outcome of `enet_peer_queue_incoming_command`: `discarded` is the
`discardCommand` exit (the static dummy command), `error` the `notifyError`
exit (`nullptr`), `inserted n` a successful insertion at forward position
`n` of the target list. -/
inductive QueueResult where
  | discarded
  | error
  | inserted (pos : Nat)
deriving Repr, DecidableEq

/-- The backwards walk over `incomingReliableCommands` (peer.cpp lines
1737-1759), given the list tail-first with forward indices.  `none` means
the walk hit the duplicate exit; `some none` that it ran past the head
(insert at the front); `some (some i)` that it broke at forward index `i`
(insert just after `i`). -/
def findInsertRel (e r : Nat) : List (Nat × InCmd) → Option (Option Nat)
  | [] => some none
  | (i, ic) :: rest =>
    if r ≥ e then
      if ic.rsn < e then findInsertRel e r rest
      else
        if ic.rsn ≤ r then (if ic.rsn < r then some (some i) else none)
        else findInsertRel e r rest
    else
      if ic.rsn ≥ e then some (some i)
      else
        if ic.rsn ≤ r then (if ic.rsn < r then some (some i) else none)
        else findInsertRel e r rest

/-- The backwards walk over `incomingUnreliableCommands` (peer.cpp lines
1770-1801); same conventions as `findInsertRel`.  The source's first test
(`continue` when the command being queued is SEND_UNSEQUENCED) is statically
false inside this `case` branch and is kept as the `isUnseq` parameter. -/
def findInsertUnrel (e r u : Nat) (isUnseq : Bool) :
    List (Nat × InCmd) → Option (Option Nat)
  | [] => some none
  | (i, ic) :: rest =>
    if isUnseq then findInsertUnrel e r u isUnseq rest
    else
      if r ≥ e then
        if ic.rsn < e then findInsertUnrel e r u isUnseq rest
        else
          if ic.rsn < r then some (some i)
          else if ic.rsn > r then findInsertUnrel e r u isUnseq rest
          else if ic.usn ≤ u then (if ic.usn < u then some (some i) else none)
          else findInsertUnrel e r u isUnseq rest
      else
        if ic.rsn ≥ e then some (some i)
        else
          if ic.rsn < r then some (some i)
          else if ic.rsn > r then findInsertUnrel e r u isUnseq rest
          else if ic.usn ≤ u then (if ic.usn < u then some (some i) else none)
          else findInsertUnrel e r u isUnseq rest

/-- Insert `a` before forward position `n` (the `enet_list_insert` at
peer.cpp line 1851, with `n = 0` for `enet_list_next` of the sentinel). -/
def insertAt (l : List InCmd) (n : Nat) (a : InCmd) : List InCmd :=
  l.take n ++ a :: l.drop n

/-- Converts a walk result into the forward insertion position used by
`enet_list_insert(enet_list_next(currentCommand), ...)`: one past the break
node, or the front when the walk ran past the head / `currentCommand` is the
sentinel. -/
def walkPos : Option Nat → Nat
  | none => 0
  | some i => i + 1

/-- Which incoming list the switch selected. -/
inductive TargetList where
  | rel
  | unrel
deriving Repr, DecidableEq

/-- The `switch` of `enet_peer_queue_incoming_command` (peer.cpp lines
1730-1810): `none` for the duplicate/default `discardCommand` exits,
otherwise the target list and the insertion position. -/
def queueIncomingSwitch (channel : InChannel) (opcode rsn usnWire : Nat) :
    Option (TargetList × Nat) :=
  let e := channel.incomingReliableSequenceNumber
  if opcode = ENET_PROTOCOL_COMMAND_SEND_FRAGMENT ∨
      opcode = ENET_PROTOCOL_COMMAND_SEND_RELIABLE then
    if rsn = e then none
    else
      match findInsertRel e rsn channel.incomingReliableCommands.enum.reverse with
      | none => none
      | some p => some (.rel, walkPos p)
  else if opcode = ENET_PROTOCOL_COMMAND_SEND_UNRELIABLE ∨
      opcode = ENET_PROTOCOL_COMMAND_SEND_UNRELIABLE_FRAGMENT then
    if rsn = e ∧ usnWire ≤ channel.incomingUnreliableSequenceNumber then none
    else
      match findInsertUnrel e rsn usnWire false
          channel.incomingUnreliableCommands.enum.reverse with
      | none => none
      | some p => some (.unrel, walkPos p)
  else if opcode = ENET_PROTOCOL_COMMAND_SEND_UNSEQUENCED then
    some (.unrel, 0)
  else none

/-- `enet_peer_queue_incoming_command` (peer.cpp lines 1683-1851) up to and
including the `enet_list_insert`.  `cmdByte` is the full command byte
(opcode plus flags); `usnWire` the decoded `unreliableSequenceNumber` for
the unreliable kinds.  Packet allocation always succeeds in the model;
`fragmentCount > ENET_PROTOCOL_MAXIMUM_FRAGMENT_COUNT` reproduces the
fragment-bitmap allocation failure. -/
def enet_peer_queue_incoming_command (state : PeerState) (channel : InChannel)
    (totalWaitingData maximumWaitingData : Nat)
    (cmdByte rsn usnWire fragmentCount : Nat) : QueueResult × InChannel :=
  let discard : QueueResult := if fragmentCount > 0 then .error else .discarded
  if state = .disconnectLater then (discard, channel)
  else
    let opcode := cmdByte % 16
    if opcode ≠ ENET_PROTOCOL_COMMAND_SEND_UNSEQUENCED ∧
        windowViolation rsn channel.incomingReliableSequenceNumber = true then
      (discard, channel)
    else
      match queueIncomingSwitch channel opcode rsn usnWire with
      | none => (discard, channel)
      | some (target, pos) =>
        if totalWaitingData ≥ maximumWaitingData then (.error, channel)
        else if fragmentCount > 0 ∧ fragmentCount > ENET_PROTOCOL_MAXIMUM_FRAGMENT_COUNT then
          (.error, channel)
        else
          let isUnrel := opcode = ENET_PROTOCOL_COMMAND_SEND_UNRELIABLE ∨
            opcode = ENET_PROTOCOL_COMMAND_SEND_UNRELIABLE_FRAGMENT
          let newCmd : InCmd :=
            { rsn := rsn, usn := (if isUnrel then usnWire else 0) % U16 }
          match target with
          | .rel => (.inserted pos, { channel with
              incomingReliableCommands :=
                insertAt channel.incomingReliableCommands pos newCmd })
          | .unrel => (.inserted pos, { channel with
              incomingUnreliableCommands :=
                insertAt channel.incomingUnreliableCommands pos newCmd })

/-- The duplicate exits of the switch, as a predicate on the same inputs. -/
def isDuplicate (channel : InChannel) (opcode rsn usnWire : Nat) : Prop :=
  let e := channel.incomingReliableSequenceNumber
  if opcode = ENET_PROTOCOL_COMMAND_SEND_FRAGMENT ∨
      opcode = ENET_PROTOCOL_COMMAND_SEND_RELIABLE then
    rsn = e ∨ findInsertRel e rsn channel.incomingReliableCommands.enum.reverse = none
  else if opcode = ENET_PROTOCOL_COMMAND_SEND_UNRELIABLE ∨
      opcode = ENET_PROTOCOL_COMMAND_SEND_UNRELIABLE_FRAGMENT then
    (rsn = e ∧ usnWire ≤ channel.incomingUnreliableSequenceNumber) ∨
      findInsertUnrel e rsn usnWire false
        channel.incomingUnreliableCommands.enum.reverse = none
  else False

instance (channel : InChannel) (opcode rsn usnWire : Nat) :
    Decidable (isDuplicate channel opcode rsn usnWire) := by
  unfold isDuplicate
  split
  · exact inferInstance
  · split
    · exact inferInstance
    · exact inferInstance

/-! ## `ENetPeer::OnReceive` (peer.cpp, lines 239-267) -/

/-- A dispatched incoming command as `OnReceive` sees it: its header channel
id and the `dataLength` of its packet (`none` models a null packet, the
`ASSERT(false)` path). -/
structure RecvCmd where
  channelID : Nat
  packet : Option Nat
deriving Repr, DecidableEq

/-- The peer fields `OnReceive` touches.  `needsDispatch` stands for the
`ENET_PEER_FLAG_NEEDS_DISPATCH` bit of `peer.flags`. -/
structure RecvPeer where
  dispatchedCommands : List RecvCmd
  totalWaitingData : Nat
  needsDispatch : Bool
deriving Repr, DecidableEq

/-- `ENetPeer::OnReceive(channelID*)` (peer.cpp lines 239-267).  The first
component is `some (channelID, dataLength)` when a packet is returned (the
out-parameter write and the returned packet), `none` when the source
returns `nullptr`. -/
def OnReceive (peer : RecvPeer) : Option (Nat × Nat) × RecvPeer :=
  match peer.dispatchedCommands with
  | [] => (none, peer)
  | ic :: rest =>
    match ic.packet with
    | none => (none, { peer with dispatchedCommands := rest })
    | some len =>
      (some (ic.channelID, len),
       { peer with
          dispatchedCommands := rest
          totalWaitingData := peer.totalWaitingData -
            min peer.totalWaitingData len })

/-- Concrete peer refuting the claim that `OnReceive` clears
`NEEDS_DISPATCH` when the dispatch list empties. -/
def recvCexPeer : RecvPeer :=
  { dispatchedCommands := [{ channelID := 3, packet := some 10 }]
    totalWaitingData := 10
    needsDispatch := true }

/-! ## Outgoing commands: `SetupOutgoingCommand`, `QueueOutgoingCommand`,
`enet_peer_queue_outgoing_command`, `SendPacket` (peer.cpp lines 269-385,
405-474, 587-601, 1334-1421) -/

/-- Packet flag bits (`Packet.h`). -/
def ENET_PACKET_FLAG_RELIABLE : Nat := 1
def ENET_PACKET_FLAG_UNSEQUENCED : Nat := 2
def ENET_PACKET_FLAG_UNRELIABLE_FRAGMENT : Nat := 8

/-- An `ENetChannel`'s outgoing sequence counters. -/
structure OutChannel where
  outgoingReliableSequenceNumber : Nat
  outgoingUnreliableSequenceNumber : Nat
deriving Repr, DecidableEq

/-- An `ENetOutgoingCommand` record, with the wire sequence fields that
`SetupOutgoingCommand` writes stored as plain values (the
`ENET_HOST_TO_NET_16` byte order is a representation detail not modelled). -/
structure OutCmd where
  commandByte : Nat
  channelID : Nat
  reliableSequenceNumber : Nat
  unreliableSequenceNumber : Nat
  sendAttempts : Nat
  sentTime : Nat
  roundTripTimeout : Nat
  queueTime : Nat
  fragmentOffset : Nat
  fragmentLength : Nat
  hasPacket : Bool
  headerReliableSequenceNumber : Nat
  wireUnreliableSeq : Nat
  wireUnsequencedGroup : Nat
deriving Repr, DecidableEq

/-- The peer (plus `host.totalQueued`) state that the outgoing-command setup
reads and writes.  The attached packet's `referenceCount` is threaded
separately, since in the source it lives on the packet object. -/
structure SendPeer where
  state : PeerState
  channels : List OutChannel
  mtu : Nat
  outgoingReliableSequenceNumber : Nat
  outgoingUnsequencedGroup : Nat
  outgoingDataTotal : Nat
  outgoingCommands : List OutCmd
  outgoingSendReliableCommands : List OutCmd
  totalQueued : Nat
deriving Repr, DecidableEq

/-- `enet_protocol_command_size`: the `commandSizes` table of `protocol.h`
indexed by the opcode, with the packed (1-byte aligned) struct sizes. -/
def enet_protocol_command_size (commandByte : Nat) : Nat :=
  match commandByte % 16 with
  | 0 => 0
  | 1 => 8
  | 2 => 48
  | 3 => 44
  | 4 => 8
  | 5 => 4
  | 6 => 6
  | 7 => 8
  | 8 => 24
  | 9 => 8
  | 10 => 12
  | 11 => 16
  | 12 => 24
  | _ => 0

/-- `ENetPeer::SetupOutgoingCommand` (peer.cpp lines 405-474; the identical
free function `enet_peer_setup_outgoing_command` is at lines 1334-1403).
All `enet_uint16` counters wrap modulo `2^16`, `enet_uint32` accumulators
modulo `2^32`. -/
def SetupOutgoingCommand (peer0 : SendPeer) (cmd0 : OutCmd) : SendPeer :=
  let peer := { peer0 with outgoingDataTotal :=
    (peer0.outgoingDataTotal + enet_protocol_command_size cmd0.commandByte +
      cmd0.fragmentLength) % U32 }
  let assign :=
    if cmd0.channelID = 0xFF then
      let n := (peer.outgoingReliableSequenceNumber + 1) % U16
      ({ peer with outgoingReliableSequenceNumber := n },
       { cmd0 with reliableSequenceNumber := n, unreliableSequenceNumber := 0 })
    else
      let channel := peer.channels.getD cmd0.channelID ⟨0, 0⟩
      if testFlag cmd0.commandByte ENET_PROTOCOL_COMMAND_FLAG_ACKNOWLEDGE then
        let n := (channel.outgoingReliableSequenceNumber + 1) % U16
        let newch : OutChannel :=
          { outgoingReliableSequenceNumber := n
            outgoingUnreliableSequenceNumber := 0 }
        ({ peer with channels := peer.channels.set cmd0.channelID newch },
         { cmd0 with reliableSequenceNumber := n, unreliableSequenceNumber := 0 })
      else if testFlag cmd0.commandByte ENET_PROTOCOL_COMMAND_FLAG_UNSEQUENCED then
        ({ peer with outgoingUnsequencedGroup :=
            (peer.outgoingUnsequencedGroup + 1) % U16 },
         { cmd0 with reliableSequenceNumber := 0, unreliableSequenceNumber := 0 })
      else
        let channel' :=
          if cmd0.fragmentOffset = 0 then
            { channel with outgoingUnreliableSequenceNumber :=
                (channel.outgoingUnreliableSequenceNumber + 1) % U16 }
          else channel
        ({ peer with channels := peer.channels.set cmd0.channelID channel' },
         { cmd0 with
            reliableSequenceNumber := channel'.outgoingReliableSequenceNumber
            unreliableSequenceNumber := channel'.outgoingUnreliableSequenceNumber })
  let peer := assign.1
  let cmd := assign.2
  let totalQueued := (peer.totalQueued + 1) % U32
  let peer := { peer with totalQueued := totalQueued }
  let cmd := { cmd with
    sendAttempts := 0
    sentTime := 0
    roundTripTimeout := 0
    headerReliableSequenceNumber := cmd.reliableSequenceNumber
    queueTime := totalQueued }
  let cmd :=
    if cmd.commandByte % 16 = ENET_PROTOCOL_COMMAND_SEND_UNRELIABLE then
      { cmd with wireUnreliableSeq := cmd.unreliableSequenceNumber }
    else if cmd.commandByte % 16 = ENET_PROTOCOL_COMMAND_SEND_UNSEQUENCED then
      { cmd with wireUnsequencedGroup := peer.outgoingUnsequencedGroup }
    else cmd
  if testFlag cmd.commandByte ENET_PROTOCOL_COMMAND_FLAG_ACKNOWLEDGE = true ∧
      cmd.hasPacket = true then
    { peer with outgoingSendReliableCommands :=
        peer.outgoingSendReliableCommands ++ [cmd] }
  else
    { peer with outgoingCommands := peer.outgoingCommands ++ [cmd] }

/-- A freshly `enet_malloc`ed outgoing command with the four fields both
queue functions assign before calling setup (the remaining fields are
whatever setup overwrites; they are zero-initialised here). -/
def initOutCmd (commandByte channelID : Nat) (hasPacket : Bool)
    (offset length : Nat) : OutCmd :=
  { commandByte := commandByte
    channelID := channelID
    reliableSequenceNumber := 0
    unreliableSequenceNumber := 0
    sendAttempts := 0
    sentTime := 0
    roundTripTimeout := 0
    queueTime := 0
    fragmentOffset := offset
    fragmentLength := length
    hasPacket := hasPacket
    headerReliableSequenceNumber := 0
    wireUnreliableSeq := 0
    wireUnsequencedGroup := 0 }

/-- `ENetPeer::QueueOutgoingCommand` (peer.cpp lines 587-601): copies the
command, sets offset/length/packet and calls setup.  It does not touch the
packet's reference count (`rc`). -/
def QueueOutgoingCommand (peer : SendPeer) (commandByte channelID : Nat)
    (hasPacket : Bool) (offset length rc : Nat) : SendPeer × Nat :=
  (SetupOutgoingCommand peer (initOutCmd commandByte channelID hasPacket offset length),
   rc)

/-- `enet_peer_queue_outgoing_command` (peer.cpp lines 1405-1421): same as
the member function, but increments the packet's reference count when a
packet is attached. -/
def enet_peer_queue_outgoing_command (peer : SendPeer)
    (commandByte channelID : Nat) (hasPacket : Bool)
    (offset length rc : Nat) : SendPeer × Nat :=
  let rc := if hasPacket then rc + 1 else rc
  (SetupOutgoingCommand peer (initOutCmd commandByte channelID hasPacket offset length),
   rc)

/-- `fragmentLength = mtu - sizeof(ENetProtocolSendFragment) - (checksum ?
4 : 0)` (peer.cpp lines 281-283, with the packed struct size 24). -/
def sendFragmentLength (mtu : Nat) (hasChecksum : Bool) : Nat :=
  mtu - 24 - (if hasChecksum then 4 else 0)

/-- One fragment command of the `SendPacket` fragment loop (peer.cpp lines
313-348): fragment `k` covers `[k*fl, k*fl + min fl (len - k*fl))`. -/
def fragmentCmd (commandByte channelID fl len k : Nat) : OutCmd :=
  initOutCmd commandByte channelID true (k * fl) (min fl (len - k * fl))

/-- `ENetPeer::SendPacket(channelID, packet)` (peer.cpp lines 269-385).
Returns the `int` result, the updated peer and the packet's reference
count.  Allocation always succeeds in the model.  Note the source builds
the fragment list by inserting each fragment at the *front* and then drains
from the front, so fragments are set up in descending `fragmentNumber`
order, and it bumps the reference count by `fragmentCount` in one step;
the single-command path delegates to the member `QueueOutgoingCommand`,
which does not touch the reference count. -/
def SendPacket (maximumPacketSize : Nat) (hasChecksum : Bool)
    (peer : SendPeer) (channelID packetFlags dataLength rc : Nat) :
    Int × SendPeer × Nat :=
  if peer.state ≠ PeerState.connected ∨ channelID ≥ peer.channels.length ∨
      dataLength > maximumPacketSize then
    (-1, peer, rc)
  else
    let channel := peer.channels.getD channelID ⟨0, 0⟩
    let fragmentLength := sendFragmentLength peer.mtu hasChecksum
    if dataLength > fragmentLength then
      let fragmentCount := (dataLength + fragmentLength - 1) / fragmentLength
      if fragmentCount > ENET_PROTOCOL_MAXIMUM_FRAGMENT_COUNT then
        (-1, peer, rc)
      else
        let commandByte :=
          if testFlag packetFlags ENET_PACKET_FLAG_UNRELIABLE_FRAGMENT = true ∧
              testFlag packetFlags ENET_PACKET_FLAG_RELIABLE = false ∧
              channel.outgoingUnreliableSequenceNumber < 0xFFFF then
            ENET_PROTOCOL_COMMAND_SEND_UNRELIABLE_FRAGMENT
          else
            ENET_PROTOCOL_COMMAND_SEND_FRAGMENT +
              ENET_PROTOCOL_COMMAND_FLAG_ACKNOWLEDGE
        let rc := rc + fragmentCount
        let peer := (List.range fragmentCount).reverse.foldl
          (fun p k => SetupOutgoingCommand p
            (fragmentCmd commandByte channelID fragmentLength dataLength k))
          peer
        (0, peer, rc)
    else
      let commandByte :=
        if testFlag packetFlags ENET_PACKET_FLAG_UNSEQUENCED = true ∧
            testFlag packetFlags ENET_PACKET_FLAG_RELIABLE = false then
          ENET_PROTOCOL_COMMAND_SEND_UNSEQUENCED +
            ENET_PROTOCOL_COMMAND_FLAG_UNSEQUENCED
        else if testFlag packetFlags ENET_PACKET_FLAG_RELIABLE = true ∨
            channel.outgoingUnreliableSequenceNumber ≥ 0xFFFF then
          ENET_PROTOCOL_COMMAND_SEND_RELIABLE +
            ENET_PROTOCOL_COMMAND_FLAG_ACKNOWLEDGE
        else
          ENET_PROTOCOL_COMMAND_SEND_UNRELIABLE
      let qr := QueueOutgoingCommand peer commandByte channelID true 0 dataLength rc
      (0, qr.1, qr.2)

/-- A concrete peer state used by the C6 counterexample and the C6/C7
witnesses. -/
def sendWitnessPeer : SendPeer :=
  { state := .connected
    channels := [⟨0, 0⟩]
    mtu := 1400
    outgoingReliableSequenceNumber := 0
    outgoingUnsequencedGroup := 0
    outgoingDataTotal := 0
    outgoingCommands := []
    outgoingSendReliableCommands := []
    totalQueued := 0 }

/-! ## `ENetHost::handle_connect` (callbacks.cpp, lines 1405-1558) -/

/-- A peer slot as the `handle_connect` scan sees it (`peers[i]` may be
null: `present = false`). -/
structure ConnSlot where
  present : Bool
  state : PeerState
  addrHost : Nat
  addrPort : Nat
  connectID : Nat
deriving Repr, DecidableEq

/-- The host fields `handle_connect` reads. -/
structure ConnectHost where
  peers : List ConnSlot
  channelLimit : Nat
  duplicatePeers : Nat
deriving Repr, DecidableEq

/-- What the (unreachable, see `handle_connect`) tail of `handle_connect`
produces: the chosen slot, transitioned to ACKNOWLEDGING_CONNECT with a
reliable VERIFY_CONNECT queued (callbacks.cpp lines 1448-1557; the
negotiation arithmetic of the tail is omitted, and note it reads the
uninitialised local `mtu` at line 1457 before assigning it at 1494). -/
structure ConnectResult where
  peerIndex : Nat
  channelCount : Nat
  state : PeerState
  connectID : Nat
  verifyConnectQueued : Bool
deriving Repr, DecidableEq

/-- The peer-scan loop of `handle_connect` (callbacks.cpp lines 1420-1442):
walks the slots accumulating the first DISCONNECTED slot and the count of
non-connecting peers sharing the sender's host address; returns `none` on
the early `return nullptr` for a non-connecting peer with the sender's
(address, port, connectID). -/
def connectScan (rh rp cid : Nat) (acc : Option Nat × Nat) :
    List (Nat × ConnSlot) → Option (Option Nat × Nat)
  | [] => some acc
  | (i, sl) :: rest =>
    if sl.present = false then connectScan rh rp cid acc rest
    else if sl.state = .disconnected then
      connectScan rh rp cid (if acc.1 = none then (some i, acc.2) else acc) rest
    else if sl.state ≠ .connecting ∧ sl.addrHost = rh then
      if sl.addrPort = rp ∧ sl.connectID = cid then none
      else connectScan rh rp cid (acc.1, acc.2 + 1) rest
    else connectScan rh rp cid acc rest

/-- `ENetHost::handle_connect` (callbacks.cpp lines 1405-1558).  `rh`/`rp`
are `receivedAddress.host/port`; `channelCount`/`connectID` the decoded
CONNECT fields.  The guard at line 1445 is translated literally:
`if (peer == nullptr || duplicatePeers >= duplicatePeers) return nullptr;`
compares the local `duplicatePeers` counter against itself (not against
`host.duplicatePeers`). -/
def handle_connect (host : ConnectHost) (rh rp channelCount connectID : Nat) :
    Option ConnectResult :=
  if channelCount < ENET_PROTOCOL_MINIMUM_CHANNEL_COUNT ∨
      channelCount > ENET_PROTOCOL_MAXIMUM_CHANNEL_COUNT then none
  else
    match connectScan rh rp connectID (none, 0) host.peers.enum with
    | none => none
    | some (peerIdx, duplicatePeers) =>
      if peerIdx = none ∨ duplicatePeers ≥ duplicatePeers then none
      else
        let clampedChannelCount :=
          if channelCount > host.channelLimit then host.channelLimit
          else channelCount
        some
          { peerIndex := peerIdx.getD 0
            channelCount := clampedChannelCount
            state := .acknowledgingConnect
            connectID := connectID
            verifyConnectQueued := true }

/-- A host with one free (DISCONNECTED) slot, on which the claim says a
valid CONNECT must succeed. -/
def connectCexHost : ConnectHost :=
  { peers := [{ present := true, state := .disconnected,
                addrHost := 0, addrPort := 0, connectID := 0 }]
    channelLimit := 8
    duplicatePeers := 4 }

/-! ## `ENetHost::handle_send_unsequenced` (callbacks.cpp, lines 1699-1745) -/

/-- The peer fields `handle_send_unsequenced` reads and writes.  The window
bitmap is `ENET_PEER_UNSEQUENCED_WINDOW_SIZE / 32 = 32` words of 32 bits. -/
structure UnseqPeer where
  channelCount : Nat
  state : PeerState
  incomingUnsequencedGroup : Nat
  unsequencedWindow : List Nat
deriving Repr, DecidableEq

/-- `peer->unsequencedWindow[index / 32] & (1 << (index % 32))` as a Bool. -/
def unseqTestBit (w : List Nat) (index : Nat) : Bool :=
  (w.getD (index / 32) 0) / 2 ^ (index % 32) % 2 = 1

/-- `peer->unsequencedWindow[index / 32] |= 1 << (index % 32)`. -/
def unseqSetBit (w : List Nat) (index : Nat) : List Nat :=
  w.set (index / 32)
    ((w.getD (index / 32) 0) + (if unseqTestBit w index then 0 else 2 ^ (index % 32)))

/-- Outcome of `handle_send_unsequenced`: the `bool` return (the source's
0 or -1), the updated peer and whether the command was queued for delivery. -/
structure UnseqResult where
  retval : Int
  peer : UnseqPeer
  queued : Bool
deriving Repr, DecidableEq

/-- `ENetHost::handle_send_unsequenced` (callbacks.cpp lines 1699-1745).
`sentGroup` is the decoded 16-bit `unsequencedGroup`; `queueOk` abstracts
whether `enet_peer_queue_incoming_command` returns non-null (allocation and
backpressure).  The pointer-range checks on `currentData` are outside the
model; `dataLength <= maximumPacketSize` is a hypothesis of the theorem. -/
def handle_send_unsequenced (peer : UnseqPeer) (channelID sentGroup : Nat)
    (queueOk : Bool) : UnseqResult :=
  if channelID ≥ peer.channelCount ∨
      (peer.state ≠ PeerState.connected ∧ peer.state ≠ PeerState.disconnectLater) then
    ⟨-1, peer, false⟩
  else
    let unsequencedGroup := sentGroup
    let index := unsequencedGroup % ENET_PEER_UNSEQUENCED_WINDOW_SIZE
    let unsequencedGroup :=
      if unsequencedGroup < peer.incomingUnsequencedGroup then
        unsequencedGroup + 0x10000
      else unsequencedGroup
    if unsequencedGroup ≥ peer.incomingUnsequencedGroup +
        ENET_PEER_FREE_UNSEQUENCED_WINDOWS * ENET_PEER_UNSEQUENCED_WINDOW_SIZE then
      ⟨0, peer, false⟩
    else
      let unsequencedGroup := unsequencedGroup % U16
      if unsequencedGroup - index ≠ peer.incomingUnsequencedGroup then
        let peer := { peer with
          incomingUnsequencedGroup := unsequencedGroup - index
          unsequencedWindow := List.replicate 32 0 }
        if queueOk = false then ⟨-1, peer, false⟩
        else ⟨0, { peer with
          unsequencedWindow := unseqSetBit peer.unsequencedWindow index }, true⟩
      else if unseqTestBit peer.unsequencedWindow index then ⟨0, peer, false⟩
      else if queueOk = false then ⟨-1, peer, false⟩
      else ⟨0, { peer with
        unsequencedWindow := unseqSetBit peer.unsequencedWindow index }, true⟩

/-- A concrete peer used to witness the C10 theorem. -/
def unseqWitnessPeer : UnseqPeer :=
  { channelCount := 2
    state := .connected
    incomingUnsequencedGroup := 0
    unsequencedWindow := List.replicate 32 0 }

/-! ## The intrusive list and
`enet_peer_dispatch_incoming_reliable_commands` (list.c, list.h;
peer.cpp lines 1645-1681)

The dispatch splice mutates raw `next`/`previous` pointers across two lists,
so here the lists are modelled at the pointer level: nodes are numbers and a
store maps each node to its `next` and `previous` pointers. -/

/-- The `next`/`previous` pointers of every `ENetListNode`. -/
structure ListStore where
  next : Nat → Nat
  prev : Nat → Nat

/-- `n->next = v`. -/
def ListStore.setNext (s : ListStore) (n v : Nat) : ListStore :=
  { s with next := fun i => if i = n then v else s.next i }

/-- `n->previous = v`. -/
def ListStore.setPrev (s : ListStore) (n v : Nat) : ListStore :=
  { s with prev := fun i => if i = n then v else s.prev i }

/-- `ENetList::move(position, dataFirst, dataLast)` (list.c): the six
pointer assignments in source order, each reading the store it left. -/
def enet_list_move (s0 : ListStore) (position first last : Nat) : ListStore :=
  let s1 := s0.setNext (s0.prev first) (s0.next last)
  let s2 := s1.setPrev (s1.next last) (s1.prev first)
  let s3 := s2.setPrev first (s2.prev position)
  let s4 := s3.setNext last position
  let s5 := s4.setNext (s4.prev first) first
  s5.setPrev position last

/-- The scan loop of `enet_peer_dispatch_incoming_reliable_commands`
(peer.cpp lines 1649-1663): walk the channel list from `cur` while each
command has `fragmentsRemaining = 0` and the successor sequence number,
advancing `incomingReliableSequenceNumber` (`enet_uint16`, so mod `2^16`,
with `fragmentCount - 1` extra for fragmented commands); returns the
stopping node and the advanced sequence number.  `fuel` bounds the
traversal (the intrusive list is finite in the source). -/
def dispatchWalk (s : ListStore) (chanSentinel : Nat)
    (fragmentsRemaining fragmentCount rsn : Nat → Nat) :
    Nat → Nat → Nat → Nat × Nat
  | 0, cur, e => (cur, e)
  | fuel + 1, cur, e =>
    if cur = chanSentinel then (cur, e)
    else if fragmentsRemaining cur > 0 ∨ rsn cur ≠ (e + 1) % U16 then (cur, e)
    else
      let e1 := rsn cur
      let e2 :=
        if fragmentCount cur > 0 then (e1 + fragmentCount cur - 1) % U16 else e1
      dispatchWalk s chanSentinel fragmentsRemaining fragmentCount rsn fuel
        (s.next cur) e2

/-- The channel/peer fields `enet_peer_dispatch_incoming_reliable_commands`
touches, over the pointer store.  `inDispatchQueue` stands for membership of
the peer's `dispatchList` in `host->dispatchQueue`. -/
structure DispatchChannelPeer where
  store : ListStore
  incomingReliableSequenceNumber : Nat
  incomingUnreliableSequenceNumber : Nat
  needsDispatch : Bool
  inDispatchQueue : Bool

/-- `enet_peer_dispatch_incoming_reliable_commands(peer, channel,
queuedCommand)` (peer.cpp lines 1645-1681; the member
`DispatchIncomingReliableCommands` at lines 1608-1644 is identical), for
executions in which `channel->incomingUnreliableCommands` is empty so the
trailing unreliable dispatch is skipped.  `chanSentinel` is the sentinel of
`channel->incomingReliableCommands`, `dispSentinel` that of
`peer->dispatchedCommands`.  The splice at line 1670 is translated
literally: `peer->dispatchedCommands.move(peer->dispatchedCommands.end(),
&(*peer->dispatchedCommands.begin()), enet_list_previous(currentCommand))`
passes the head of the peer's own dispatched list as `dataFirst` — not the
head of `channel->incomingReliableCommands`. -/
def enet_peer_dispatch_incoming_reliable_commands (fuel : Nat)
    (st : DispatchChannelPeer) (chanSentinel dispSentinel : Nat)
    (fragmentsRemaining fragmentCount rsn : Nat → Nat) : DispatchChannelPeer :=
  let first := st.store.next chanSentinel
  let we := dispatchWalk st.store chanSentinel fragmentsRemaining fragmentCount
    rsn fuel first st.incomingReliableSequenceNumber
  let currentCommand := we.1
  if currentCommand = first then st
  else
    let st := { st with
      incomingReliableSequenceNumber := we.2
      incomingUnreliableSequenceNumber := 0 }
    let store := enet_list_move st.store dispSentinel
      (st.store.next dispSentinel) (st.store.prev currentCommand)
    let st := { st with store := store }
    if st.needsDispatch = false then
      { st with inDispatchQueue := true, needsDispatch := true }
    else st

/-- Forward traversal from `cur` until the sentinel (or fuel runs out). -/
def listToList (s : ListStore) (sentinel : Nat) : Nat → Nat → List Nat
  | 0, _ => []
  | fuel + 1, cur =>
    if cur = sentinel then [] else cur :: listToList s sentinel fuel (s.next cur)

/-- The nodes of the intrusive list owned by `sentinel`, in forward order. -/
def listNodes (s : ListStore) (sentinel : Nat) (fuel : Nat) : List Nat :=
  listToList s sentinel fuel (s.next sentinel)

/-- The C2 failing input: node 0 is the sentinel of the (empty)
`peer->dispatchedCommands`, node 1 the sentinel of
`channel->incomingReliableCommands`, node 2 the single queued command with
`reliableSequenceNumber = 1`, `fragmentsRemaining = 0`, against
`channel->incomingReliableSequenceNumber = 0`. -/
def dispatchCexState : DispatchChannelPeer :=
  { store :=
      { next := fun i => if i = 1 then 2 else if i = 2 then 1 else if i = 0 then 0 else i
        prev := fun i => if i = 1 then 2 else if i = 2 then 1 else if i = 0 then 0 else i }
    incomingReliableSequenceNumber := 0
    incomingUnreliableSequenceNumber := 5
    needsDispatch := false
    inDispatchQueue := false }

/-- `fragmentsRemaining` on the C2 failing input: zero everywhere. -/
def dispatchCexFragRemaining : Nat → Nat := fun _ => 0

/-- `fragmentCount` on the C2 failing input: zero everywhere. -/
def dispatchCexFragCount : Nat → Nat := fun _ => 0

/-- `reliableSequenceNumber` on the C2 failing input: 1 on the command. -/
def dispatchCexRsn : Nat → Nat := fun i => if i = 2 then 1 else 0

end Enet

/-- C8 counterexample: the claim says the acceleration branch sets
`packetThrottle` to `min(packetThrottle + acceleration, limit)`; with
`packetThrottle = 32`, `acceleration = 2^32 - 1` and `limit = 32` the code's
`uint32` sum wraps to `31`, which escapes the `> limit` clamp, while the
claimed `min` is `32`. -/
theorem C8_counterexample :
    (Enet.enet_peer_throttle Enet.throttleCexPeer 1).2.packetThrottle = 31 ∧
    min (Enet.throttleCexPeer.packetThrottle +
          Enet.throttleCexPeer.packetThrottleAcceleration)
        Enet.throttleCexPeer.packetThrottleLimit = 32 := by
  constructor
  · rfl
  · rfl

/-- C8 (amended): `enet_peer_throttle(peer, rtt)` behaves as: if
`lastRoundTripTime <= lastRoundTripTimeVariance` it sets `packetThrottle` to
`packetThrottleLimit` and returns 0; else if `rtt <= lastRoundTripTime` it
sets `packetThrottle` to `min((packetThrottle + acceleration) mod 2^32,
limit)` and returns 1; else if `rtt > (lastRoundTripTime +
2*lastRoundTripTimeVariance) mod 2^32` it sets `packetThrottle` to
`packetThrottle - deceleration` saturating at 0 and returns -1; otherwise it
returns 0 leaving `packetThrottle` unchanged. -/
theorem C8_throttle_behaviour (peer : Enet.ThrottlePeer) (rtt : Nat)
    (_hrtt : rtt < Enet.U32) :
    Enet.enet_peer_throttle peer rtt =
      (if peer.lastRoundTripTime ≤ peer.lastRoundTripTimeVariance then
        (0, { peer with packetThrottle := peer.packetThrottleLimit })
      else if rtt ≤ peer.lastRoundTripTime then
        let accelerated :=
          min ((peer.packetThrottle + peer.packetThrottleAcceleration) % Enet.U32)
            peer.packetThrottleLimit
        (1, { peer with packetThrottle := accelerated })
      else if rtt > (peer.lastRoundTripTime + 2 * peer.lastRoundTripTimeVariance) % Enet.U32 then
        let decelerated := peer.packetThrottle - peer.packetThrottleDeceleration
        (-1, { peer with packetThrottle := decelerated })
      else
        (0, peer)) := by
  unfold Enet.enet_peer_throttle
  split
  · rfl
  · split
    · have : min ((peer.packetThrottle + peer.packetThrottleAcceleration) % Enet.U32)
          peer.packetThrottleLimit =
          if (peer.packetThrottle + peer.packetThrottleAcceleration) % Enet.U32 >
              peer.packetThrottleLimit then peer.packetThrottleLimit
          else (peer.packetThrottle + peer.packetThrottleAcceleration) % Enet.U32 := by
        split <;> omega
      simp only [this]
    · split
      · have : (if peer.packetThrottle > peer.packetThrottleDeceleration then
              peer.packetThrottle - peer.packetThrottleDeceleration
            else 0) = peer.packetThrottle - peer.packetThrottleDeceleration := by
          split <;> omega
        simp only [this]
      · rfl

/-- Witness for `C8_throttle_behaviour` at a concrete peer and sample. -/
theorem C8_throttle_behaviour_witness :
    Enet.enet_peer_throttle Enet.throttleCexPeer 1 =
      (1, { Enet.throttleCexPeer with packetThrottle := 31 }) := by
  have h := C8_throttle_behaviour Enet.throttleCexPeer 1 (by decide)
  rw [h]
  rfl

/-! Helper bounds for the `uint32` arithmetic in the RTT update. -/

theorem usub32_lt (a b : Nat) : Enet.usub32 a b < Enet.U32 :=
  Nat.mod_lt _ (by decide)

theorem time_diff_lt_U32 (a b : Nat) : Enet.ENET_TIME_DIFFERENCE a b < Enet.U32 := by
  unfold Enet.ENET_TIME_DIFFERENCE
  split <;> exact usub32_lt _ _

theorem ack_track_roundTripTime (t : Nat) (q : Enet.AckPeer) :
    (Enet.ack_track t q).roundTripTime = q.roundTripTime := by
  unfold Enet.ack_track
  dsimp only
  split_ifs <;> rfl

theorem ack_track_roundTripTimeVariance (t : Nat) (q : Enet.AckPeer) :
    (Enet.ack_track t q).roundTripTimeVariance = q.roundTripTimeVariance := by
  unfold Enet.ack_track
  dsimp only
  split_ifs <;> rfl

/-- C9: for a peer neither DISCONNECTED nor ZOMBIE with `lastReceiveTime > 0`,
when `handle_acknowledge` does not take its early wrap exit, the RTT
statistics are updated by the claimed exponential smoothing on the sample
`max(ENET_TIME_DIFFERENCE(serviceTime, reconstructedSentTime), 1)`:
`variance -= variance/4`, then `diff/4` is added to the variance and
`diff/8` added to (resp. subtracted from) the round-trip time according to
whether the sample is at least the current round-trip time. -/
theorem C9_rtt_smoothing (serviceTime sent16 : Nat) (peer : Enet.AckPeer)
    (hrtt : peer.roundTripTime < Enet.U32)
    (hvar : peer.roundTripTimeVariance < Enet.U32)
    (hstate : peer.state ≠ .disconnected ∧ peer.state ≠ .zombie)
    (hrecv : peer.lastReceiveTime > 0)
    (hless : Enet.ENET_TIME_LESS serviceTime
      (Enet.reconstructSentTime serviceTime sent16) = false) :
    ∃ peer', Enet.handle_acknowledge_rtt serviceTime sent16 peer = some peer' ∧
      (let sample := max (Enet.ENET_TIME_DIFFERENCE serviceTime
          (Enet.reconstructSentTime serviceTime sent16)) 1
       let v1 := peer.roundTripTimeVariance - peer.roundTripTimeVariance / 4
       if sample ≥ peer.roundTripTime then
         peer'.roundTripTimeVariance = v1 + (sample - peer.roundTripTime) / 4 ∧
         peer'.roundTripTime = peer.roundTripTime + (sample - peer.roundTripTime) / 8
       else
         peer'.roundTripTimeVariance = v1 + (peer.roundTripTime - sample) / 4 ∧
         peer'.roundTripTime = peer.roundTripTime - (peer.roundTripTime - sample) / 8) := by
  have hdiff : Enet.ENET_TIME_DIFFERENCE serviceTime
      (Enet.reconstructSentTime serviceTime sent16) < Enet.U32 :=
    time_diff_lt_U32 _ _
  have hsample : max (Enet.ENET_TIME_DIFFERENCE serviceTime
      (Enet.reconstructSentTime serviceTime sent16)) 1 < Enet.U32 :=
    Nat.max_lt.mpr ⟨hdiff, by decide⟩
  unfold Enet.handle_acknowledge_rtt
  rw [if_neg (by simp [hstate.1, hstate.2])]
  simp only [hless, Bool.false_eq_true, if_false]
  refine ⟨_, rfl, ?_⟩
  simp only
  set sample := max (Enet.ENET_TIME_DIFFERENCE serviceTime
      (Enet.reconstructSentTime serviceTime sent16)) 1 with hsdef
  rw [ack_track_roundTripTime, ack_track_roundTripTimeVariance]
  unfold Enet.ack_smooth
  rw [if_pos hrecv]
  simp only
  by_cases hge : sample ≥ peer.roundTripTime
  · rw [if_pos hge, if_pos hge]
    simp only
    constructor
    · apply Nat.mod_eq_of_lt
      unfold Enet.U32 at *
      omega
    · apply Nat.mod_eq_of_lt
      unfold Enet.U32 at *
      omega
  · rw [if_neg hge, if_neg hge]
    simp only
    constructor
    · apply Nat.mod_eq_of_lt
      unfold Enet.U32 at *
      omega
    · trivial

/-- Witness for `C9_rtt_smoothing` at a concrete peer and times. -/
theorem C9_rtt_smoothing_witness :
    ∃ peer', Enet.handle_acknowledge_rtt 1000 900 Enet.ackWitnessPeer = some peer' ∧
      peer'.roundTripTime = 450 ∧ peer'.roundTripTimeVariance = 175 := by
  obtain ⟨p', hp', hprops⟩ :=
    C9_rtt_smoothing 1000 900 Enet.ackWitnessPeer (by decide) (by decide)
      (by constructor <;> decide) (by decide) (by decide)
  refine ⟨p', hp', ?_⟩
  have hsample : max (Enet.ENET_TIME_DIFFERENCE 1000
      (Enet.reconstructSentTime 1000 900)) 1 = 100 := by decide
  rw [hsample] at hprops
  rw [if_neg (by decide)] at hprops
  obtain ⟨hv, hr⟩ := hprops
  refine ⟨?_, ?_⟩
  · rw [hr]; rfl
  · rw [hv]; rfl

/-! ## C4: acknowledgements and the reliable window -/

theorem violation_implies_ackDrop (r e : Nat) (hr : r < Enet.U16)
    (he : e < Enet.U16) :
    Enet.windowViolation r e = true → Enet.ackWindowDrop r e = true := by
  unfold Enet.windowViolation Enet.ackWindowDrop Enet.shiftedWindow
    Enet.ENET_PEER_RELIABLE_WINDOW_SIZE Enet.ENET_PEER_RELIABLE_WINDOWS
    Enet.ENET_PEER_FREE_RELIABLE_WINDOWS
  unfold Enet.U16 at hr he
  intro h
  simp only [decide_eq_true_eq] at *
  split_ifs at * <;> omega

/-- C4: an acknowledgement is queued only when the datagram carried the
sent-time header flag and the peer's state accepts acks (the `ack_gate`);
a command rejected by the reliable-window admission test of
`enet_peer_queue_incoming_command` (stale or too-far-future) never gets an
ack; and `enet_peer_queue_acknowledgement` returns `none` without appending
exactly when the channel is valid and the shifted window index lies in the
boundary zone `[currentWindow + FREE - 1, currentWindow + FREE]`. -/
theorem C4_ack_only_within_window (peer : Enet.AckQPeer)
    (channelID rsn sentTime headerFlags cmdByte : Nat) (state : Enet.PeerState)
    (hrsn : rsn < Enet.U16)
    (hch : ∀ e ∈ peer.channels, e < Enet.U16) :
    (Enet.ack_gate headerFlags state cmdByte = true →
      Enet.testFlag headerFlags Enet.ENET_PROTOCOL_HEADER_FLAG_SENT_TIME = true ∧
      state ≠ .disconnecting ∧ state ≠ .acknowledgingConnect ∧
      state ≠ .disconnected ∧ state ≠ .zombie) ∧
    (∀ h : channelID < peer.channels.length,
      Enet.windowViolation rsn (peer.channels.get ⟨channelID, h⟩) = true →
      Enet.enet_peer_queue_acknowledgement peer channelID rsn sentTime = none) ∧
    (Enet.enet_peer_queue_acknowledgement peer channelID rsn sentTime = none ↔
      ∃ h : channelID < peer.channels.length,
        Enet.ackWindowDrop rsn (peer.channels.get ⟨channelID, h⟩) = true) := by
  refine ⟨?_, ?_, ?_⟩
  · intro hg
    unfold Enet.ack_gate at hg
    split_ifs at hg with h1 h2 h3 h4 <;> try simp at hg
    all_goals
      simp only [Bool.ne_false_iff] at h2
      push_neg at h3
      exact ⟨h2, h3.1, h3.2.1, h3.2.2.1, h3.2.2.2⟩
  · intro h hviol
    unfold Enet.enet_peer_queue_acknowledgement
    rw [dif_pos h]
    simp only
    rw [if_pos (violation_implies_ackDrop _ _ hrsn
      (hch _ (peer.channels.get_mem _ h)) hviol)]
  · constructor
    · intro hnone
      unfold Enet.enet_peer_queue_acknowledgement at hnone
      by_cases h : channelID < peer.channels.length
      · rw [dif_pos h] at hnone
        simp only at hnone
        by_cases hd : Enet.ackWindowDrop rsn (peer.channels.get ⟨channelID, h⟩) = true
        · exact ⟨h, hd⟩
        · rw [if_neg hd] at hnone
          exact absurd hnone (by simp)
      · rw [dif_neg h] at hnone
        exact absurd hnone (by simp)
    · rintro ⟨h, hd⟩
      unfold Enet.enet_peer_queue_acknowledgement
      rw [dif_pos h]
      simp only
      rw [if_pos hd]

/-- Witness for `C4_ack_only_within_window`: a stale-window sequence number
(`rsn = 61440` against `e = 0`) is both rejected by the incoming window test
and dropped by the acknowledgement boundary zone. -/
theorem C4_ack_only_within_window_witness :
    let peer : Enet.AckQPeer :=
      { channels := [0], outgoingDataTotal := 0, acknowledgements := [] }
    (Enet.ack_gate 32768 .connected 134 = true →
      Enet.testFlag 32768 Enet.ENET_PROTOCOL_HEADER_FLAG_SENT_TIME = true ∧
      Enet.PeerState.connected ≠ .disconnecting ∧
      Enet.PeerState.connected ≠ .acknowledgingConnect ∧
      Enet.PeerState.connected ≠ .disconnected ∧
      Enet.PeerState.connected ≠ .zombie) ∧
    (∀ h : 0 < peer.channels.length,
      Enet.windowViolation 61440 (peer.channels.get ⟨0, h⟩) = true →
      Enet.enet_peer_queue_acknowledgement peer 0 61440 7 = none) ∧
    (Enet.enet_peer_queue_acknowledgement peer 0 61440 7 = none ↔
      ∃ h : 0 < peer.channels.length,
        Enet.ackWindowDrop 61440 (peer.channels.get ⟨0, h⟩) = true) :=
  C4_ack_only_within_window _ 0 61440 7 32768 134 .connected (by decide)
    (by decide)

/-! ## C3: the reliable-window admission test of `enet_peer_queue_incoming_command` -/

theorem queueIncomingSwitch_none_iff_dup (channel : Enet.InChannel)
    (opcode rsn usnWire : Nat)
    (hkind : opcode = Enet.ENET_PROTOCOL_COMMAND_SEND_RELIABLE ∨
      opcode = Enet.ENET_PROTOCOL_COMMAND_SEND_UNRELIABLE ∨
      opcode = Enet.ENET_PROTOCOL_COMMAND_SEND_FRAGMENT ∨
      opcode = Enet.ENET_PROTOCOL_COMMAND_SEND_UNRELIABLE_FRAGMENT) :
    (Enet.queueIncomingSwitch channel opcode rsn usnWire = none ↔
      Enet.isDuplicate channel opcode rsn usnWire) := by
  unfold Enet.queueIncomingSwitch Enet.isDuplicate
  split_ifs with hrel hunrel hunseq
  · by_cases hre : rsn = channel.incomingReliableSequenceNumber
    · simp [hre]
    · rcases hf : Enet.findInsertRel channel.incomingReliableSequenceNumber rsn
          channel.incomingReliableCommands.enum.reverse with _ | p
      · simp [hre, hf]
      · simp [hre, hf]
  · by_cases hue : rsn = channel.incomingReliableSequenceNumber ∧
        usnWire ≤ channel.incomingUnreliableSequenceNumber
    · simp [hue]
    · rcases hf : Enet.findInsertUnrel channel.incomingReliableSequenceNumber rsn
          usnWire false channel.incomingUnreliableCommands.enum.reverse with _ | p
      · simp [hue, hf]
      · simp [hue, hf]
  · unfold Enet.ENET_PROTOCOL_COMMAND_SEND_RELIABLE
      Enet.ENET_PROTOCOL_COMMAND_SEND_UNRELIABLE
      Enet.ENET_PROTOCOL_COMMAND_SEND_FRAGMENT
      Enet.ENET_PROTOCOL_COMMAND_SEND_UNRELIABLE_FRAGMENT
      Enet.ENET_PROTOCOL_COMMAND_SEND_UNSEQUENCED at *
    omega
  · unfold Enet.ENET_PROTOCOL_COMMAND_SEND_RELIABLE
      Enet.ENET_PROTOCOL_COMMAND_SEND_UNRELIABLE
      Enet.ENET_PROTOCOL_COMMAND_SEND_FRAGMENT
      Enet.ENET_PROTOCOL_COMMAND_SEND_UNRELIABLE_FRAGMENT
      Enet.ENET_PROTOCOL_COMMAND_SEND_UNSEQUENCED at *
    omega

/-- C3 counterexample: on a peer in DISCONNECT_LATER, a SEND_RELIABLE command
with an in-window sequence number (`rsn = 1` against `e = 0`), no possible
duplicate (both incoming lists empty) and no backpressure (`0 < 1000000`) is
still discarded without insertion, contradicting the claim that in-window
commands proceed to insertion unless rejected as duplicates or by
backpressure. -/
theorem C3_counterexample :
    (Enet.enet_peer_queue_incoming_command .disconnectLater
        ⟨0, 0, [], []⟩ 0 1000000 134 1 0 0) =
      (.discarded, ⟨0, 0, [], []⟩) ∧
    Enet.windowViolation 1 0 = false ∧
    ¬ Enet.isDuplicate ⟨0, 0, [], []⟩ (134 % 16) 1 0 ∧
    (0 : Nat) < 1000000 :=
  ⟨rfl, by decide, by decide, by decide⟩

/-- C3 (amended): for a non-UNSEQUENCED send command submitted to
`enet_peer_queue_incoming_command` on a peer *not in DISCONNECT_LATER*, with
`rw`/`cw` the shifted and current reliable windows: the command is rejected
with no insertion and an unchanged channel exactly when `rw < cw` or
`rw >= cw + ENET_PEER_FREE_RELIABLE_WINDOWS - 1` (the `windowViolation`
test); an in-window command is inserted unless it is a duplicate or
backpressure (`totalWaitingData >= maximumWaitingData`) rejects it. -/
theorem C3_window_admission (state : Enet.PeerState) (channel : Enet.InChannel)
    (twd mwd cmdByte rsn usnWire fragmentCount : Nat)
    (hstate : state ≠ .disconnectLater)
    (hkind : cmdByte % 16 = Enet.ENET_PROTOCOL_COMMAND_SEND_RELIABLE ∨
      cmdByte % 16 = Enet.ENET_PROTOCOL_COMMAND_SEND_UNRELIABLE ∨
      cmdByte % 16 = Enet.ENET_PROTOCOL_COMMAND_SEND_FRAGMENT ∨
      cmdByte % 16 = Enet.ENET_PROTOCOL_COMMAND_SEND_UNRELIABLE_FRAGMENT)
    (hfrag : fragmentCount ≤ Enet.ENET_PROTOCOL_MAXIMUM_FRAGMENT_COUNT) :
    (Enet.windowViolation rsn channel.incomingReliableSequenceNumber = true →
      Enet.enet_peer_queue_incoming_command state channel twd mwd cmdByte rsn
          usnWire fragmentCount =
        ((if fragmentCount > 0 then .error else .discarded), channel)) ∧
    (Enet.windowViolation rsn channel.incomingReliableSequenceNumber = false →
      Enet.isDuplicate channel (cmdByte % 16) rsn usnWire →
      Enet.enet_peer_queue_incoming_command state channel twd mwd cmdByte rsn
          usnWire fragmentCount =
        ((if fragmentCount > 0 then .error else .discarded), channel)) ∧
    (Enet.windowViolation rsn channel.incomingReliableSequenceNumber = false →
      ¬ Enet.isDuplicate channel (cmdByte % 16) rsn usnWire →
      twd ≥ mwd →
      Enet.enet_peer_queue_incoming_command state channel twd mwd cmdByte rsn
          usnWire fragmentCount = (.error, channel)) ∧
    (Enet.windowViolation rsn channel.incomingReliableSequenceNumber = false →
      ¬ Enet.isDuplicate channel (cmdByte % 16) rsn usnWire →
      twd < mwd →
      ∃ p, (Enet.enet_peer_queue_incoming_command state channel twd mwd cmdByte
          rsn usnWire fragmentCount).1 = .inserted p) := by
  have hne : cmdByte % 16 ≠ Enet.ENET_PROTOCOL_COMMAND_SEND_UNSEQUENCED := by
    unfold Enet.ENET_PROTOCOL_COMMAND_SEND_RELIABLE
      Enet.ENET_PROTOCOL_COMMAND_SEND_UNRELIABLE
      Enet.ENET_PROTOCOL_COMMAND_SEND_FRAGMENT
      Enet.ENET_PROTOCOL_COMMAND_SEND_UNRELIABLE_FRAGMENT
      Enet.ENET_PROTOCOL_COMMAND_SEND_UNSEQUENCED at *
    omega
  unfold Enet.enet_peer_queue_incoming_command
  rw [if_neg hstate]
  simp only
  refine ⟨?_, ?_, ?_, ?_⟩
  · intro hviol
    rw [if_pos ⟨hne, hviol⟩]
  · intro hviol hdup
    rw [if_neg (by simp [hviol])]
    rw [(queueIncomingSwitch_none_iff_dup channel _ rsn usnWire hkind).mpr hdup]
  · intro hviol hdup hbp
    rw [if_neg (by simp [hviol])]
    rcases hsw : Enet.queueIncomingSwitch channel (cmdByte % 16) rsn usnWire
        with _ | ⟨t, p⟩
    · exact absurd ((queueIncomingSwitch_none_iff_dup channel _ rsn usnWire
        hkind).mp hsw) hdup
    · simp only
      rw [if_pos hbp]
  · intro hviol hdup hbp
    rw [if_neg (by simp [hviol])]
    rcases hsw : Enet.queueIncomingSwitch channel (cmdByte % 16) rsn usnWire
        with _ | ⟨t, p⟩
    · exact absurd ((queueIncomingSwitch_none_iff_dup channel _ rsn usnWire
        hkind).mp hsw) hdup
    · simp only
      rw [if_neg (by omega)]
      rw [if_neg (by
        unfold Enet.ENET_PROTOCOL_MAXIMUM_FRAGMENT_COUNT at *
        omega)]
      cases t
      · exact ⟨p, rfl⟩
      · exact ⟨p, rfl⟩

/-- Witness for `C3_window_admission` at a concrete in-window insertion. -/
theorem C3_window_admission_witness :
    (Enet.windowViolation 1 0 = true →
      Enet.enet_peer_queue_incoming_command .connected ⟨0, 0, [], []⟩ 0 100 134
          1 0 0 = ((if (0 : Nat) > 0 then .error else .discarded), ⟨0, 0, [], []⟩)) ∧
    (Enet.windowViolation 1 0 = false →
      Enet.isDuplicate ⟨0, 0, [], []⟩ (134 % 16) 1 0 →
      Enet.enet_peer_queue_incoming_command .connected ⟨0, 0, [], []⟩ 0 100 134
          1 0 0 = ((if (0 : Nat) > 0 then .error else .discarded), ⟨0, 0, [], []⟩)) ∧
    (Enet.windowViolation 1 0 = false →
      ¬ Enet.isDuplicate ⟨0, 0, [], []⟩ (134 % 16) 1 0 →
      (0 : Nat) ≥ 100 →
      Enet.enet_peer_queue_incoming_command .connected ⟨0, 0, [], []⟩ 0 100 134
          1 0 0 = (.error, ⟨0, 0, [], []⟩)) ∧
    (Enet.windowViolation 1 0 = false →
      ¬ Enet.isDuplicate ⟨0, 0, [], []⟩ (134 % 16) 1 0 →
      (0 : Nat) < 100 →
      ∃ p, (Enet.enet_peer_queue_incoming_command .connected ⟨0, 0, [], []⟩ 0 100
          134 1 0 0).1 = .inserted p) :=
  C3_window_admission .connected ⟨0, 0, [], []⟩ 0 100 134 1 0 0 (by decide)
    (by decide) (by decide)

/-! ## C5: `ENetPeer::OnReceive` -/

/-- C5 counterexample: `OnReceive` never touches the peer's flags.  Starting
from a flagged peer whose single dispatched command is popped, the dispatch
list becomes empty yet `NEEDS_DISPATCH` is still set, contradicting the
claim that the flag is cleared when the list empties. -/
theorem C5_counterexample :
    (Enet.OnReceive Enet.recvCexPeer).2.dispatchedCommands = [] ∧
    (Enet.OnReceive Enet.recvCexPeer).2.needsDispatch = true := ⟨rfl, rfl⟩

/-- C5 (amended): for a peer with a non-empty `dispatchedCommands` list whose
head carries a packet, `OnReceive` removes the head, returns its channel id
and packet, and decreases `totalWaitingData` by
`min(totalWaitingData, packet.dataLength)`; the `NEEDS_DISPATCH` flag is
left unchanged (it is not cleared by `OnReceive`); on an empty list it
returns null and changes nothing. -/
theorem C5_receive_pops_head (peer : Enet.RecvPeer) :
    (peer.dispatchedCommands = [] → Enet.OnReceive peer = (none, peer)) ∧
    (∀ c rest len, peer.dispatchedCommands = c :: rest → c.packet = some len →
      Enet.OnReceive peer = (some (c.channelID, len),
        { peer with
            dispatchedCommands := rest
            totalWaitingData := peer.totalWaitingData -
              min peer.totalWaitingData len })) ∧
    (Enet.OnReceive peer).2.needsDispatch = peer.needsDispatch := by
  refine ⟨?_, ?_, ?_⟩
  · intro h
    unfold Enet.OnReceive
    rw [h]
  · intro c rest len hl hp
    unfold Enet.OnReceive
    rw [hl]
    simp only [hp]
  · rcases hl : peer.dispatchedCommands with _ | ⟨c, rest⟩
    · unfold Enet.OnReceive
      rw [hl]
    · unfold Enet.OnReceive
      rw [hl]
      rcases hp : c.packet with _ | len <;> simp [hp]

/-- Witness for `C5_receive_pops_head` at the concrete peer. -/
theorem C5_receive_pops_head_witness :
    (Enet.recvCexPeer.dispatchedCommands = [] →
      Enet.OnReceive Enet.recvCexPeer = (none, Enet.recvCexPeer)) ∧
    (∀ c rest len, Enet.recvCexPeer.dispatchedCommands = c :: rest →
      c.packet = some len →
      Enet.OnReceive Enet.recvCexPeer = (some (c.channelID, len),
        { Enet.recvCexPeer with
            dispatchedCommands := rest
            totalWaitingData := Enet.recvCexPeer.totalWaitingData -
              min Enet.recvCexPeer.totalWaitingData len })) ∧
    (Enet.OnReceive Enet.recvCexPeer).2.needsDispatch =
      Enet.recvCexPeer.needsDispatch :=
  C5_receive_pops_head Enet.recvCexPeer

/-! ## C6: the two outgoing-command queue functions -/

/-- C6 counterexample: with a packet attached (`hasPacket = true`,
`referenceCount = 0`), the member function `QueueOutgoingCommand` leaves the
reference count at 0 while the free function
`enet_peer_queue_outgoing_command` raises it to 1, so the two functions are
not equivalent and it is false that both increment the count by one. -/
theorem C6_counterexample :
    (Enet.QueueOutgoingCommand Enet.sendWitnessPeer 134 0 true 0 10 0).2 = 0 ∧
    (Enet.enet_peer_queue_outgoing_command Enet.sendWitnessPeer 134 0 true 0 10
      0).2 = 1 :=
  ⟨rfl, rfl⟩

/-- C6 (amended): `QueueOutgoingCommand` and
`enet_peer_queue_outgoing_command` produce identical outgoing-command
records and identical peer/sequence state, and differ only on the attached
packet's reference count: the free function increments it by one when a
packet is supplied, the member function leaves it unchanged; with no packet
they are fully equivalent. -/
theorem C6_queue_functions_agree_except_refcount (peer : Enet.SendPeer)
    (commandByte channelID : Nat) (hasPacket : Bool) (offset length rc : Nat) :
    (Enet.enet_peer_queue_outgoing_command peer commandByte channelID hasPacket
        offset length rc).1 =
      (Enet.QueueOutgoingCommand peer commandByte channelID hasPacket
        offset length rc).1 ∧
    (Enet.QueueOutgoingCommand peer commandByte channelID hasPacket
        offset length rc).2 = rc ∧
    (Enet.enet_peer_queue_outgoing_command peer commandByte channelID hasPacket
        offset length rc).2 = rc + (if hasPacket then 1 else 0) := by
  refine ⟨rfl, rfl, ?_⟩
  cases hasPacket <;> rfl

/-! ## C7: `ENetPeer::SendPacket` argument validation -/

/-- C7: `SendPacket` fails with `-1` and leaves the peer state and the
packet's reference count unchanged exactly when the peer is not CONNECTED,
the channel id is out of range, the packet exceeds
`host.maximumPacketSize`, or the computed fragment count exceeds
`ENET_PROTOCOL_MAXIMUM_FRAGMENT_COUNT`; otherwise it returns 0. -/
theorem C7_send_guards (maximumPacketSize : Nat) (hasChecksum : Bool)
    (peer : Enet.SendPeer) (channelID packetFlags dataLength rc : Nat)
    (hmtu : Enet.ENET_PROTOCOL_MINIMUM_MTU ≤ peer.mtu) :
    (peer.state ≠ Enet.PeerState.connected ∨
        channelID ≥ peer.channels.length ∨ dataLength > maximumPacketSize ∨
        (dataLength + Enet.sendFragmentLength peer.mtu hasChecksum - 1) /
            Enet.sendFragmentLength peer.mtu hasChecksum >
          Enet.ENET_PROTOCOL_MAXIMUM_FRAGMENT_COUNT →
      Enet.SendPacket maximumPacketSize hasChecksum peer channelID
        packetFlags dataLength rc = (-1, peer, rc)) ∧
    (¬ (peer.state ≠ Enet.PeerState.connected ∨
        channelID ≥ peer.channels.length ∨ dataLength > maximumPacketSize ∨
        (dataLength + Enet.sendFragmentLength peer.mtu hasChecksum - 1) /
            Enet.sendFragmentLength peer.mtu hasChecksum >
          Enet.ENET_PROTOCOL_MAXIMUM_FRAGMENT_COUNT) →
      (Enet.SendPacket maximumPacketSize hasChecksum peer channelID
        packetFlags dataLength rc).1 = 0) := by
  have hfl : 1 ≤ Enet.sendFragmentLength peer.mtu hasChecksum := by
    unfold Enet.ENET_PROTOCOL_MINIMUM_MTU at hmtu
    unfold Enet.sendFragmentLength
    split <;> omega
  have hsmall : dataLength ≤ Enet.sendFragmentLength peer.mtu hasChecksum →
      (dataLength + Enet.sendFragmentLength peer.mtu hasChecksum - 1) /
        Enet.sendFragmentLength peer.mtu hasChecksum < 2 := fun h =>
    (Nat.div_lt_iff_lt_mul (by omega)).mpr (by omega)
  constructor
  · intro hbad
    unfold Enet.SendPacket
    by_cases h1 : peer.state ≠ Enet.PeerState.connected ∨
        channelID ≥ peer.channels.length ∨ dataLength > maximumPacketSize
    · rw [if_pos h1]
    · rw [if_neg h1]
      have hc4 : (dataLength + Enet.sendFragmentLength peer.mtu hasChecksum - 1) /
          Enet.sendFragmentLength peer.mtu hasChecksum >
          Enet.ENET_PROTOCOL_MAXIMUM_FRAGMENT_COUNT := by tauto
      have hlen : dataLength > Enet.sendFragmentLength peer.mtu hasChecksum := by
        by_contra hle
        have := hsmall (by omega)
        unfold Enet.ENET_PROTOCOL_MAXIMUM_FRAGMENT_COUNT at hc4
        omega
      simp only
      rw [if_pos hlen, if_pos hc4]
  · intro hgood
    push_neg at hgood
    unfold Enet.SendPacket
    rw [if_neg (by
      push_neg
      exact ⟨hgood.1, by omega, by omega⟩)]
    simp only
    by_cases hlen : dataLength > Enet.sendFragmentLength peer.mtu hasChecksum
    · rw [if_pos hlen, if_neg (by
        have := hgood.2.2.2
        omega)]
    · rw [if_neg hlen]

/-- Witness for `C7_send_guards` at a concrete well-formed send. -/
theorem C7_send_guards_witness :
    (Enet.sendWitnessPeer.state ≠ Enet.PeerState.connected ∨
        0 ≥ Enet.sendWitnessPeer.channels.length ∨ 10 > 32000000 ∨
        (10 + Enet.sendFragmentLength Enet.sendWitnessPeer.mtu false - 1) /
            Enet.sendFragmentLength Enet.sendWitnessPeer.mtu false >
          Enet.ENET_PROTOCOL_MAXIMUM_FRAGMENT_COUNT →
      Enet.SendPacket 32000000 false Enet.sendWitnessPeer 0 1 10 0 =
        (-1, Enet.sendWitnessPeer, 0)) ∧
    (¬ (Enet.sendWitnessPeer.state ≠ Enet.PeerState.connected ∨
        0 ≥ Enet.sendWitnessPeer.channels.length ∨ 10 > 32000000 ∨
        (10 + Enet.sendFragmentLength Enet.sendWitnessPeer.mtu false - 1) /
            Enet.sendFragmentLength Enet.sendWitnessPeer.mtu false >
          Enet.ENET_PROTOCOL_MAXIMUM_FRAGMENT_COUNT) →
      (Enet.SendPacket 32000000 false Enet.sendWitnessPeer 0 1 10 0).1 = 0) :=
  C7_send_guards 32000000 false Enet.sendWitnessPeer 0 1 10 0 (by decide)

/-! ## C1: `ENetHost::handle_connect` -/

/-- C1: the duplicate-peer guard at callbacks.cpp line 1445 compares the
local `duplicatePeers` counter against itself (`duplicatePeers >=
duplicatePeers`), which always holds, so `handle_connect` returns null for
*every* CONNECT — in particular for the claimed failing input: a valid
channel count (2), a host with a free DISCONNECTED slot, no conflicting
(address, connectID) peer, and zero duplicates against a limit of 4.  No
peer is ever transitioned to ACKNOWLEDGING_CONNECT and no VERIFY_CONNECT is
ever queued. -/
theorem C1_handle_connect_always_null :
    Enet.handle_connect Enet.connectCexHost 42 7 2 99 = none ∧
    ∀ (host : Enet.ConnectHost) (rh rp channelCount connectID : Nat),
      Enet.handle_connect host rh rp channelCount connectID = none := by
  constructor
  · decide
  · intro host rh rp cc cid
    unfold Enet.handle_connect
    split
    · rfl
    · rcases hsc : Enet.connectScan rh rp cid (none, 0) host.peers.enum
          with _ | ⟨p, d⟩
      · simp only [hsc]
      · simp only [hsc]
        rw [if_pos (Or.inr (le_refl d))]

/-! ## C10: the unsequenced-group replay window -/

theorem unseqTestBit_setBit (w : List Nat) (index : Nat)
    (h : index / 32 < w.length) :
    Enet.unseqTestBit (Enet.unseqSetBit w index) index = true := by
  unfold Enet.unseqTestBit Enet.unseqSetBit
  have hset : (w.set (index / 32)
      ((w.getD (index / 32) 0) +
        (if Enet.unseqTestBit w index then 0 else 2 ^ (index % 32)))).getD
        (index / 32) 0 =
      (w.getD (index / 32) 0) +
        (if Enet.unseqTestBit w index then 0 else 2 ^ (index % 32)) := by
    rw [List.getD_eq_getElem?_getD, List.getElem?_set_self (by omega)]
    rfl
  rw [hset]
  by_cases hb : Enet.unseqTestBit w index
  · rw [if_pos hb]
    unfold Enet.unseqTestBit at hb
    simpa using hb
  · rw [if_neg hb]
    unfold Enet.unseqTestBit at hb
    have hpow : 0 < 2 ^ (index % 32) := Nat.pos_pow_of_pos _ (by omega)
    rw [Nat.add_div_right _ hpow]
    simp only [decide_eq_true_eq] at hb ⊢
    omega

/-- C10: on a valid channel of a CONNECTED (or DISCONNECT_LATER) peer, a
SEND_UNSEQUENCED command whose wrap-shifted group reaches
`incomingUnsequencedGroup + FREE_UNSEQUENCED_WINDOWS *
UNSEQUENCED_WINDOW_SIZE` is dropped without queueing; within the current
window a group whose bitmap bit is already set is dropped without queueing;
a first-time-accepted group is queued and its bit is set afterwards; and a
group crossing into a new window zeroes the bitmap, advances
`incomingUnsequencedGroup` to `group - (group mod UNSEQUENCED_WINDOW_SIZE)`
and queues the command with its bit set in the fresh bitmap.  Hence the
same group is never queued twice within one window lifetime. -/
theorem C10_unsequenced_replay (peer : Enet.UnseqPeer)
    (channelID sentGroup : Nat) (queueOk : Bool)
    (hchan : channelID < peer.channelCount)
    (hstate : peer.state = .connected ∨ peer.state = .disconnectLater)
    (hg : sentGroup < Enet.U16)
    (hw : peer.unsequencedWindow.length = 32) :
    ((if sentGroup < peer.incomingUnsequencedGroup then sentGroup + 0x10000
        else sentGroup) ≥ peer.incomingUnsequencedGroup +
        Enet.ENET_PEER_FREE_UNSEQUENCED_WINDOWS *
          Enet.ENET_PEER_UNSEQUENCED_WINDOW_SIZE →
      Enet.handle_send_unsequenced peer channelID sentGroup queueOk =
        ⟨0, peer, false⟩) ∧
    ((if sentGroup < peer.incomingUnsequencedGroup then sentGroup + 0x10000
        else sentGroup) < peer.incomingUnsequencedGroup +
        Enet.ENET_PEER_FREE_UNSEQUENCED_WINDOWS *
          Enet.ENET_PEER_UNSEQUENCED_WINDOW_SIZE →
      sentGroup - sentGroup % Enet.ENET_PEER_UNSEQUENCED_WINDOW_SIZE =
        peer.incomingUnsequencedGroup →
      Enet.unseqTestBit peer.unsequencedWindow
        (sentGroup % Enet.ENET_PEER_UNSEQUENCED_WINDOW_SIZE) = true →
      Enet.handle_send_unsequenced peer channelID sentGroup queueOk =
        ⟨0, peer, false⟩) ∧
    ((if sentGroup < peer.incomingUnsequencedGroup then sentGroup + 0x10000
        else sentGroup) < peer.incomingUnsequencedGroup +
        Enet.ENET_PEER_FREE_UNSEQUENCED_WINDOWS *
          Enet.ENET_PEER_UNSEQUENCED_WINDOW_SIZE →
      sentGroup - sentGroup % Enet.ENET_PEER_UNSEQUENCED_WINDOW_SIZE =
        peer.incomingUnsequencedGroup →
      Enet.unseqTestBit peer.unsequencedWindow
        (sentGroup % Enet.ENET_PEER_UNSEQUENCED_WINDOW_SIZE) = false →
      queueOk = true →
      Enet.handle_send_unsequenced peer channelID sentGroup queueOk =
        ⟨0, { peer with unsequencedWindow := (Enet.unseqSetBit
          peer.unsequencedWindow
          (sentGroup % Enet.ENET_PEER_UNSEQUENCED_WINDOW_SIZE)) }, true⟩ ∧
      Enet.unseqTestBit
        (Enet.unseqSetBit peer.unsequencedWindow
          (sentGroup % Enet.ENET_PEER_UNSEQUENCED_WINDOW_SIZE))
        (sentGroup % Enet.ENET_PEER_UNSEQUENCED_WINDOW_SIZE) = true) ∧
    ((if sentGroup < peer.incomingUnsequencedGroup then sentGroup + 0x10000
        else sentGroup) < peer.incomingUnsequencedGroup +
        Enet.ENET_PEER_FREE_UNSEQUENCED_WINDOWS *
          Enet.ENET_PEER_UNSEQUENCED_WINDOW_SIZE →
      sentGroup - sentGroup % Enet.ENET_PEER_UNSEQUENCED_WINDOW_SIZE ≠
        peer.incomingUnsequencedGroup →
      queueOk = true →
      Enet.handle_send_unsequenced peer channelID sentGroup queueOk =
        ⟨0, { peer with
          incomingUnsequencedGroup := (sentGroup -
            sentGroup % Enet.ENET_PEER_UNSEQUENCED_WINDOW_SIZE)
          unsequencedWindow := (Enet.unseqSetBit (List.replicate 32 0)
            (sentGroup % Enet.ENET_PEER_UNSEQUENCED_WINDOW_SIZE)) }, true⟩) := by
  have hguard : ¬ (channelID ≥ peer.channelCount ∨
      (peer.state ≠ Enet.PeerState.connected ∧
        peer.state ≠ Enet.PeerState.disconnectLater)) := by
    push_neg
    refine ⟨by omega, fun hne => ?_⟩
    rcases hstate with h | h
    · exact absurd h hne
    · exact h
  have hmask : (if sentGroup < peer.incomingUnsequencedGroup then
      sentGroup + 0x10000 else sentGroup) % Enet.U16 = sentGroup := by
    unfold Enet.U16 at *
    split
    · rw [Nat.add_mod_right, Nat.mod_eq_of_lt hg]
    · exact Nat.mod_eq_of_lt hg
  refine ⟨?_, ?_, ?_, ?_⟩
  · intro h1
    unfold Enet.handle_send_unsequenced
    rw [if_neg hguard]
    simp only
    rw [if_pos h1]
  · intro h1 h2 h3
    unfold Enet.handle_send_unsequenced
    rw [if_neg hguard]
    simp only
    rw [if_neg (by omega), hmask, if_neg (by
      simp only [Decidable.not_not]
      exact h2)]
    rw [if_pos h3]
  · intro h1 h2 h3 h4
    constructor
    · unfold Enet.handle_send_unsequenced
      rw [if_neg hguard]
      simp only
      rw [if_neg (by omega), hmask, if_neg (by
        simp only [Decidable.not_not]
        exact h2)]
      rw [if_neg (by simp [h3]), if_neg (by simp [h4])]
    · exact unseqTestBit_setBit _ _ (by
        rw [hw]
        have : sentGroup % Enet.ENET_PEER_UNSEQUENCED_WINDOW_SIZE < 1024 :=
          Nat.mod_lt _ (by decide)
        omega)
  · intro h1 h2 h3
    unfold Enet.handle_send_unsequenced
    rw [if_neg hguard]
    simp only
    rw [if_neg (by omega), hmask, if_pos h2, if_neg (by simp [h3])]

/-- Witness for `C10_unsequenced_replay` at a concrete first delivery. -/
theorem C10_unsequenced_replay_witness :
    ((if (5 : Nat) < Enet.unseqWitnessPeer.incomingUnsequencedGroup then 5 + 0x10000
        else 5) ≥ Enet.unseqWitnessPeer.incomingUnsequencedGroup +
        Enet.ENET_PEER_FREE_UNSEQUENCED_WINDOWS *
          Enet.ENET_PEER_UNSEQUENCED_WINDOW_SIZE →
      Enet.handle_send_unsequenced Enet.unseqWitnessPeer 0 5 true =
        ⟨0, Enet.unseqWitnessPeer, false⟩) ∧
    ((if (5 : Nat) < Enet.unseqWitnessPeer.incomingUnsequencedGroup then 5 + 0x10000
        else 5) < Enet.unseqWitnessPeer.incomingUnsequencedGroup +
        Enet.ENET_PEER_FREE_UNSEQUENCED_WINDOWS *
          Enet.ENET_PEER_UNSEQUENCED_WINDOW_SIZE →
      5 - 5 % Enet.ENET_PEER_UNSEQUENCED_WINDOW_SIZE =
        Enet.unseqWitnessPeer.incomingUnsequencedGroup →
      Enet.unseqTestBit Enet.unseqWitnessPeer.unsequencedWindow
        (5 % Enet.ENET_PEER_UNSEQUENCED_WINDOW_SIZE) = true →
      Enet.handle_send_unsequenced Enet.unseqWitnessPeer 0 5 true =
        ⟨0, Enet.unseqWitnessPeer, false⟩) ∧
    ((if (5 : Nat) < Enet.unseqWitnessPeer.incomingUnsequencedGroup then 5 + 0x10000
        else 5) < Enet.unseqWitnessPeer.incomingUnsequencedGroup +
        Enet.ENET_PEER_FREE_UNSEQUENCED_WINDOWS *
          Enet.ENET_PEER_UNSEQUENCED_WINDOW_SIZE →
      5 - 5 % Enet.ENET_PEER_UNSEQUENCED_WINDOW_SIZE =
        Enet.unseqWitnessPeer.incomingUnsequencedGroup →
      Enet.unseqTestBit Enet.unseqWitnessPeer.unsequencedWindow
        (5 % Enet.ENET_PEER_UNSEQUENCED_WINDOW_SIZE) = false →
      true = true →
      Enet.handle_send_unsequenced Enet.unseqWitnessPeer 0 5 true =
        ⟨0, { Enet.unseqWitnessPeer with unsequencedWindow := (Enet.unseqSetBit
          Enet.unseqWitnessPeer.unsequencedWindow
          (5 % Enet.ENET_PEER_UNSEQUENCED_WINDOW_SIZE)) }, true⟩ ∧
      Enet.unseqTestBit
        (Enet.unseqSetBit Enet.unseqWitnessPeer.unsequencedWindow
          (5 % Enet.ENET_PEER_UNSEQUENCED_WINDOW_SIZE))
        (5 % Enet.ENET_PEER_UNSEQUENCED_WINDOW_SIZE) = true) ∧
    ((if (5 : Nat) < Enet.unseqWitnessPeer.incomingUnsequencedGroup then 5 + 0x10000
        else 5) < Enet.unseqWitnessPeer.incomingUnsequencedGroup +
        Enet.ENET_PEER_FREE_UNSEQUENCED_WINDOWS *
          Enet.ENET_PEER_UNSEQUENCED_WINDOW_SIZE →
      5 - 5 % Enet.ENET_PEER_UNSEQUENCED_WINDOW_SIZE ≠
        Enet.unseqWitnessPeer.incomingUnsequencedGroup →
      true = true →
      Enet.handle_send_unsequenced Enet.unseqWitnessPeer 0 5 true =
        ⟨0, { Enet.unseqWitnessPeer with
          incomingUnsequencedGroup := (5 -
            5 % Enet.ENET_PEER_UNSEQUENCED_WINDOW_SIZE)
          unsequencedWindow := (Enet.unseqSetBit (List.replicate 32 0)
            (5 % Enet.ENET_PEER_UNSEQUENCED_WINDOW_SIZE)) }, true⟩) :=
  C10_unsequenced_replay Enet.unseqWitnessPeer 0 5 true (by decide)
    (by decide) (by decide) (by decide)

/-! ## C2: the reliable dispatch splice -/

/-- C2: evaluating `enet_peer_dispatch_incoming_reliable_commands` at the
failing input — a channel whose `incomingReliableCommands` holds exactly one
complete command with the next-expected sequence number (node 2, sequence 1
against `incomingReliableSequenceNumber = 0`) and an empty
`dispatchedCommands` list.  The claim requires the command to end up as the
tail of `peer.dispatchedCommands`; instead the splice (which passes the head
of `dispatchedCommands` itself as the start of the range to move, peer.cpp
line 1670) leaves the dispatched list empty and corrupts the channel list,
whose forward traversal now runs through the dispatched sentinel (node 0)
in a self-loop instead of returning to its own sentinel.  The sequence
number advance, the unreliable-sequence reset and the dispatch flagging do
happen as claimed. -/
theorem C2_dispatch_splice_loses_command :
    (Enet.enet_peer_dispatch_incoming_reliable_commands 8 Enet.dispatchCexState
        1 0 Enet.dispatchCexFragRemaining Enet.dispatchCexFragCount
        Enet.dispatchCexRsn).incomingReliableSequenceNumber = 1 ∧
    (Enet.enet_peer_dispatch_incoming_reliable_commands 8 Enet.dispatchCexState
        1 0 Enet.dispatchCexFragRemaining Enet.dispatchCexFragCount
        Enet.dispatchCexRsn).incomingUnreliableSequenceNumber = 0 ∧
    (Enet.enet_peer_dispatch_incoming_reliable_commands 8 Enet.dispatchCexState
        1 0 Enet.dispatchCexFragRemaining Enet.dispatchCexFragCount
        Enet.dispatchCexRsn).needsDispatch = true ∧
    (Enet.enet_peer_dispatch_incoming_reliable_commands 8 Enet.dispatchCexState
        1 0 Enet.dispatchCexFragRemaining Enet.dispatchCexFragCount
        Enet.dispatchCexRsn).inDispatchQueue = true ∧
    Enet.listNodes (Enet.enet_peer_dispatch_incoming_reliable_commands 8
        Enet.dispatchCexState 1 0 Enet.dispatchCexFragRemaining
        Enet.dispatchCexFragCount Enet.dispatchCexRsn).store 0 8 = [] ∧
    Enet.listNodes (Enet.enet_peer_dispatch_incoming_reliable_commands 8
        Enet.dispatchCexState 1 0 Enet.dispatchCexFragRemaining
        Enet.dispatchCexFragCount Enet.dispatchCexRsn).store 0 8 ≠ [2] ∧
    Enet.listNodes (Enet.enet_peer_dispatch_incoming_reliable_commands 8
        Enet.dispatchCexState 1 0 Enet.dispatchCexFragRemaining
        Enet.dispatchCexFragCount Enet.dispatchCexRsn).store 1 8 =
      [2, 0, 0, 0, 0, 0, 0, 0] := by
  refine ⟨rfl, rfl, rfl, rfl, rfl, ?_, rfl⟩
  intro h
  exact absurd h (by decide)
